import Mathlib

/-!
# LedControl: MAX7219/MAX7221 driver

A shallow embedding of `src/LedControl.cpp`.  The driver object is a record,
every member function is a function from the object to `Option` of the updated
object (`none` stands for an access outside the bounds of `status` or
`spidata`, which is undefined behaviour in C++), and the calls to the Arduino
core (`pinMode`, `digitalWrite`, `shiftOut`) are appended to a trace kept in
the object.

All `uint8_t` quantities are natural numbers; every arithmetic result that the
source stores into a `uint8_t` is reduced modulo 256 explicitly.
-/

/-- Arduino logic levels, the second argument of `digitalWrite`. -/
inductive Level
  | LOW
  | HIGH
  deriving DecidableEq

/-- Arduino pin modes, the second argument of `pinMode`. -/
inductive PinMode
  | INPUT
  | OUTPUT
  deriving DecidableEq

/-- Arduino bit orders, the third argument of `shiftOut`. -/
inductive BitOrder
  | LSBFIRST
  | MSBFIRST
  deriving DecidableEq

/-- One call into the Arduino core made by the driver. -/
inductive BusEvent
  | pinMode (pin : Nat) (mode : PinMode)
  | digitalWrite (pin : Nat) (level : Level)
  | shiftOut (dataPin clockPin : Nat) (order : BitOrder) (val : Nat)
  deriving DecidableEq

/-- The data members of class `LedControl`, and the trace of the calls made to
the Arduino core so far.  `status` and `spidata` are the two byte arrays of the
object, as maps from index to content; every access goes through the bounds
checked accessors below. -/
structure LedControl where
  SPI_MOSI : Nat
  SPI_CLK : Nat
  SPI_CS : Nat
  maxDevices : Nat
  status : Nat → Nat
  spidata : Nat → Nat
  bus : List BusEvent

namespace LedControl

/-- Modelled from the spec: `LedControl.h` is not part of the sources.  The
shadow array `status` has 64 entries (8 bytes for each of at most 8 devices);
the constructor's zeroing loop runs over exactly these 64 indices. -/
def statusSize : Nat := 64

/-- Modelled from the spec: `LedControl.h` is not part of the sources.  The
transfer buffer `spidata` is sized for at most 8 devices times 2 bytes. -/
def spidataSize : Nat := 16

/-- Modelled from the spec: the glyph table `charTable` of `LedControl.h` is
not part of the sources; it has one entry for each of the low 128 character
codes. -/
def charTableSize : Nat := 128

def OP_NOOP : Nat := 0
def OP_DIGIT0 : Nat := 1
def OP_DIGIT1 : Nat := 2
def OP_DIGIT2 : Nat := 3
def OP_DIGIT3 : Nat := 4
def OP_DIGIT4 : Nat := 5
def OP_DIGIT5 : Nat := 6
def OP_DIGIT6 : Nat := 7
def OP_DIGIT7 : Nat := 8
def OP_DECODEMODE : Nat := 9
def OP_INTENSITY : Nat := 10
def OP_SCANLIMIT : Nat := 11
def OP_SHUTDOWN : Nat := 12
def OP_DISPLAYTEST : Nat := 15

/-- The constant `B10000000` of the Arduino core. -/
def B10000000 : Nat := 128

/-- Read of `status[i]`. -/
def readStatus (s : LedControl) (i : Nat) : Option Nat :=
  if i < statusSize then some (s.status i) else none

/-- Assignment `status[i] = v`. -/
def writeStatus (s : LedControl) (i v : Nat) : Option LedControl :=
  if i < statusSize then some { s with status := Function.update s.status i v } else none

/-- Read of `spidata[i]`. -/
def readSpidata (s : LedControl) (i : Nat) : Option Nat :=
  if i < spidataSize then some (s.spidata i) else none

/-- Assignment `spidata[i] = v`. -/
def writeSpidata (s : LedControl) (i v : Nat) : Option LedControl :=
  if i < spidataSize then some { s with spidata := Function.update s.spidata i v } else none

/-- Read `pgm_read_byte_near(charTable + i)` of the glyph table. -/
def readCharTable (charTable : Nat → Nat) (i : Nat) : Option Nat :=
  if i < charTableSize then some (charTable i) else none

/-- Record one call into the Arduino core. -/
def emit (s : LedControl) (e : BusEvent) : LedControl :=
  { s with bus := s.bus ++ [e] }

/-- The loop `for (uint8_t i = lo; i < hi; i++) body(i)`, as
`forUp body (hi - lo) lo`: the first numeric argument is the number of
iterations left, the second the current value of `i`.  Every such loop of the
source has `hi ≤ 255`, so the counter never wraps. -/
def forUp {σ : Type} (body : Nat → σ → Option σ) : Nat → Nat → σ → Option σ
  | 0, _, s => some s
  | k + 1, i, s => (body i s).bind (forUp body k (i + 1))

/-- The loop `for (uint8_t i = hi; i > 0; i--) body(i)`. -/
def forDown {σ : Type} (body : Nat → σ → Option σ) : Nat → σ → Option σ
  | 0, s => some s
  | i + 1, s => (body (i + 1) s).bind (forDown body i)

/-- The body of the second loop of `spiTransfer` (line 247):
`shiftOut(SPI_MOSI, SPI_CLK, MSBFIRST, spidata[i - 1])`. -/
def shiftOutByte (i : Nat) (s : LedControl) : Option LedControl := do
  let b ← s.readSpidata (i - 1)
  pure (s.emit (.shiftOut s.SPI_MOSI s.SPI_CLK .MSBFIRST b))

/-- Member function `LedControl::spiTransfer` (lines 231-250). -/
def spiTransfer (s : LedControl) (addr opcode data : Nat) : Option LedControl := do
  let offset := (addr * 2) % 256
  let maxbytes := (s.maxDevices * 2) % 256
  let s ← forUp (fun i t => t.writeSpidata i 0) (maxbytes - 0) 0 s
  let s ← s.writeSpidata (offset + 1) opcode
  let s ← s.writeSpidata offset data
  let s := s.emit (.digitalWrite s.SPI_CS .LOW)
  let s ← forDown shiftOutByte maxbytes s
  pure (s.emit (.digitalWrite s.SPI_CS .HIGH))

/-- Member function `LedControl::getDeviceCount` (lines 81-84). -/
def getDeviceCount (s : LedControl) : Nat :=
  s.maxDevices

/-- Member function `LedControl::shutdown` (lines 86-95). -/
def shutdown (s : LedControl) (addr : Nat) (b : Bool) : Option LedControl :=
  if addr ≥ s.maxDevices then some s
  else if b then s.spiTransfer addr OP_SHUTDOWN 0
  else s.spiTransfer addr OP_SHUTDOWN 1

/-- Member function `LedControl::setScanLimit` (lines 97-104). -/
def setScanLimit (s : LedControl) (addr limit : Nat) : Option LedControl :=
  if addr ≥ s.maxDevices then some s
  else if limit ≥ 0 ∧ limit < 8 then s.spiTransfer addr OP_SCANLIMIT limit
  else some s

/-- Member function `LedControl::setIntensity` (lines 106-113). -/
def setIntensity (s : LedControl) (addr intensity : Nat) : Option LedControl :=
  if addr ≥ s.maxDevices then some s
  else if intensity ≥ 0 ∧ intensity < 16 then s.spiTransfer addr OP_INTENSITY intensity
  else some s

/-- Member function `LedControl::clearDisplay` (lines 115-128). -/
def clearDisplay (s : LedControl) (addr : Nat) : Option LedControl :=
  if addr ≥ s.maxDevices then some s
  else
    let offset := (addr * 8) % 256
    forUp
      (fun i t => do
        let t ← t.writeStatus (offset + i) 0
        let v ← t.readStatus (offset + i)
        t.spiTransfer addr ((i + 1) % 256) v)
      (8 - 0) 0 s

/-- Member function `LedControl::setLed` (lines 130-151).  The complement
`~val` is taken on the promoted `int` and stored back into the `uint8_t`
variable `val`, which gives `255 - val` for the byte `val`. -/
def setLed (s : LedControl) (addr row column : Nat) (state : Bool) : Option LedControl :=
  if addr ≥ s.maxDevices then some s
  else if row > 7 ∨ column > 7 then some s
  else do
    let offset := (addr * 8) % 256
    let val := (B10000000 >>> column) % 256
    let s ←
      if state then do
        let old ← s.readStatus (offset + row)
        s.writeStatus (offset + row) ((old ||| val) % 256)
      else do
        let val := (255 - val) % 256
        let old ← s.readStatus (offset + row)
        s.writeStatus (offset + row) ((old &&& val) % 256)
    let v ← s.readStatus (offset + row)
    s.spiTransfer addr ((row + 1) % 256) v

/-- Member function `LedControl::setRow` (lines 153-165). -/
def setRow (s : LedControl) (addr row value : Nat) : Option LedControl :=
  if addr ≥ s.maxDevices then some s
  else if row > 7 then some s
  else do
    let offset := (addr * 8) % 256
    let s ← s.writeStatus (offset + row) value
    let v ← s.readStatus (offset + row)
    s.spiTransfer addr ((row + 1) % 256) v

/-- Member function `LedControl::setColumn` (lines 167-183).  The `uint8_t` value `val` is
converted to the `bool` parameter of `setLed` by comparison with zero. -/
def setColumn (s : LedControl) (addr col value : Nat) : Option LedControl :=
  if addr ≥ s.maxDevices then some s
  else if col > 7 then some s
  else
    forUp
      (fun row t =>
        let val := (value >>> (7 - row)) % 256
        let val := (val &&& 0x01) % 256
        t.setLed addr row col (decide (val ≠ 0)))
      (8 - 0) 0 s

/-- Member function `LedControl::setDigit` (lines 186-203). -/
def setDigit (charTable : Nat → Nat) (s : LedControl) (addr digit value : Nat) (dp : Bool) :
    Option LedControl :=
  if addr ≥ s.maxDevices then some s
  else if digit > 7 ∨ value > 15 then some s
  else do
    let offset := (addr * 8) % 256
    let v ← readCharTable charTable value
    let v := if dp then (v ||| B10000000) % 256 else v
    let s ← s.writeStatus (offset + digit) v
    s.spiTransfer addr ((digit + 1) % 256) v

/-- Member function `LedControl::setChar` (lines 205-228).  The `char` argument is given by its
character code, which the cast `(uint8_t)value` reduces modulo 256. -/
def setChar (charTable : Nat → Nat) (s : LedControl) (addr digit value : Nat) (dp : Bool) :
    Option LedControl :=
  if addr ≥ s.maxDevices then some s
  else if digit > 7 then some s
  else do
    let offset := (addr * 8) % 256
    let index := value % 256
    let index := if index > 127 then 32 else index
    let v ← readCharTable charTable index
    let v := if dp then (v ||| B10000000) % 256 else v
    let s ← s.writeStatus (offset + digit) v
    s.spiTransfer addr ((digit + 1) % 256) v

/-- The assignments of the constructor up to the zeroing of `status`
(lines 47-66), applied to the object `raw` as found before construction. -/
def constructFields (raw : LedControl) (dataPin clkPin csPin numDevices : Nat) :
    Option LedControl := do
  let s := { raw with SPI_MOSI := dataPin }
  let s := { s with SPI_CLK := clkPin }
  let s := { s with SPI_CS := csPin }
  let s := { s with maxDevices := numDevices }
  let s := if s.maxDevices > 8 then { s with maxDevices := 8 } else s
  let s := { s with maxDevices := numDevices }
  let s := s.emit (.pinMode s.SPI_MOSI .OUTPUT)
  let s := s.emit (.pinMode s.SPI_CLK .OUTPUT)
  let s := s.emit (.pinMode s.SPI_CS .OUTPUT)
  let s := s.emit (.digitalWrite s.SPI_CS .HIGH)
  let s := { s with SPI_MOSI := dataPin }
  forUp (fun i t => t.writeStatus i 0x00) (64 - 0) 0 s

/-- The body of the constructor's loop over the devices (lines 70-77). -/
def constructDevice (i : Nat) (s : LedControl) : Option LedControl := do
  let s ← s.spiTransfer i OP_DISPLAYTEST 0
  let s ← s.setScanLimit i 7
  let s ← s.spiTransfer i OP_DECODEMODE 0
  let s ← s.clearDisplay i
  s.shutdown i true

/-- Member function `LedControl::LedControl` (lines 45-79), applied to the object `raw` as
found before construction (its arrays hold arbitrary bytes, its trace is the
history of the bus so far). -/
def construct (raw : LedControl) (dataPin clkPin csPin numDevices : Nat) :
    Option LedControl := do
  let s ← constructFields raw dataPin clkPin csPin numDevices
  forUp constructDevice (s.maxDevices - 0) 0 s

/-- One public member function call.  `spiTransfer` is a private member and
is not among them. -/
inductive Op
  | getDeviceCount
  | shutdown (addr : Nat) (b : Bool)
  | setScanLimit (addr limit : Nat)
  | setIntensity (addr intensity : Nat)
  | clearDisplay (addr : Nat)
  | setLed (addr row column : Nat) (state : Bool)
  | setRow (addr row value : Nat)
  | setColumn (addr col value : Nat)
  | setDigit (addr digit value : Nat) (dp : Bool)
  | setChar (addr digit value : Nat) (dp : Bool)
  deriving DecidableEq

/-- Effect of one public call on the object. -/
def Op.run (charTable : Nat → Nat) (s : LedControl) : Op → Option LedControl
  | .getDeviceCount => some s
  | .shutdown addr b => s.shutdown addr b
  | .setScanLimit addr limit => s.setScanLimit addr limit
  | .setIntensity addr intensity => s.setIntensity addr intensity
  | .clearDisplay addr => s.clearDisplay addr
  | .setLed addr row column state => s.setLed addr row column state
  | .setRow addr row value => s.setRow addr row value
  | .setColumn addr col value => s.setColumn addr col value
  | .setDigit addr digit value dp => LedControl.setDigit charTable s addr digit value dp
  | .setChar addr digit value dp => LedControl.setChar charTable s addr digit value dp

/-- Effect of a sequence of public calls, first call first. -/
def runOps (charTable : Nat → Nat) : List Op → LedControl → Option LedControl
  | [], s => some s
  | op :: ops, s => (op.run charTable s).bind (runOps charTable ops)

/-! ## Description of frames -/

/-- Byte `i` of a frame that carries `(opcode, data)` for device `addr` and
the no-op pair `(0, 0)` for every other device. -/
def slotByte (addr opcode data i : Nat) : Nat :=
  if i = 2 * addr then data
  else if i = 2 * addr + 1 then opcode
  else 0

/-- Contents of `spidata` after a transfer of `(opcode, data)` to device `addr`
on a chain of `n` devices, `old` being the contents before: the first `2 * n`
bytes are the frame, the rest is untouched. -/
def frameBuffer (old : Nat → Nat) (n addr opcode data : Nat) : Nat → Nat :=
  fun i => if i < 2 * n then slotByte addr opcode data i else old i

/-- The bus trace of one transaction that sends the first `len` bytes of
`buf`: select low, the bytes from index `len - 1` down to index `0`, select
high. -/
def frameEvents (mosi clk cs : Nat) (buf : Nat → Nat) (len : Nat) : List BusEvent :=
  [BusEvent.digitalWrite cs Level.LOW]
    ++ (List.range len).map
        (fun i => BusEvent.shiftOut mosi clk BitOrder.MSBFIRST (buf (len - 1 - i)))
    ++ [BusEvent.digitalWrite cs Level.HIGH]

/-- The bus trace of one transaction on the bus of `s` that carries
`(opcode, data)` for device `addr`. -/
def transferEvents (s : LedControl) (addr opcode data : Nat) : List BusEvent :=
  frameEvents s.SPI_MOSI s.SPI_CLK s.SPI_CS (slotByte addr opcode data) (2 * s.maxDevices)

/-- The object after one transaction that carries `(opcode, data)` for device
`addr`. -/
def transact (s : LedControl) (addr opcode data : Nat) : LedControl :=
  { s with
    spidata := frameBuffer s.spidata s.maxDevices addr opcode data
    bus := s.bus ++ transferEvents s addr opcode data }

/-- The object after `status[addr * 8 + row]` is set to `v` and `v` is sent to
register `row + 1` of device `addr`. -/
def rowWrite (s : LedControl) (addr row v : Nat) : LedControl :=
  transact { s with status := Function.update s.status (addr * 8 + row) v } addr (row + 1) v

/-- The object after `k` successive row writes to device `addr`, starting at
row `i`, where row `r` receives `g r old`, `old` being its shadow byte. -/
def rowWrites (g : Nat → Nat → Nat) (addr : Nat) : Nat → Nat → LedControl → LedControl
  | 0, _, s => s
  | k + 1, i, s => rowWrites g addr k (i + 1) (rowWrite s addr i (g i (s.status (addr * 8 + i))))

/-- The byte `setLed` stores for a row whose shadow byte is `old`. -/
def ledByte (old column : Nat) (state : Bool) : Nat :=
  if state then (old ||| (B10000000 >>> column) % 256) % 256
  else (old &&& (255 - (B10000000 >>> column) % 256) % 256) % 256

/-- The flag `setColumn` passes to `setLed` for row `row`. -/
def columnFlag (value row : Nat) : Bool :=
  decide (((value >>> (7 - row)) % 256 &&& 0x01) % 256 ≠ 0)

/-! ## The chain of devices as seen from the bus -/

/-- State of the daisy chain: the bytes clocked into it so far (most recent
first; the chain is one long shift register and device `d` holds the bytes at
positions `2 * d` and `2 * d + 1`), and the register file of every device
(`regs d a` is the content of register `a` of device `d`). -/
structure Chain where
  shift : List Nat
  regs : Nat → Nat → Nat

/-- Rising edge of the select line on a chain of `n` devices: every device
latches the pair it holds, the byte at position `2 * d + 1` being the register
address and the byte at position `2 * d` the data; address 0 is the no-op. -/
def Chain.latch (n : Nat) (c : Chain) : Chain :=
  { c with
    regs := fun d a =>
      if d < n ∧ c.shift.getD (2 * d + 1) 0 ≠ 0 ∧ a = c.shift.getD (2 * d + 1) 0
      then c.shift.getD (2 * d) 0
      else c.regs d a }

/-- Reaction of a chain of `n` devices to one bus event. -/
def Chain.step (n : Nat) (c : Chain) : BusEvent → Chain
  | .shiftOut _ _ .MSBFIRST v => { c with shift := v :: c.shift }
  | .shiftOut _ _ .LSBFIRST _ => c
  | .digitalWrite _ .HIGH => c.latch n
  | .digitalWrite _ .LOW => c
  | .pinMode _ _ => c

/-- Register files of a chain of `n` devices after the bus trace `bus`,
starting from the register files `regs0`. -/
def replay (n : Nat) (regs0 : Nat → Nat → Nat) (bus : List BusEvent) : Chain :=
  bus.foldl (Chain.step n) { shift := [], regs := regs0 }

/-! ## Description of the constructor -/

/-- The object after the assignments of the constructor up to the zeroing of
`status`. -/
def fieldsObject (raw : LedControl) (dataPin clkPin csPin numDevices : Nat) : LedControl :=
  { SPI_MOSI := dataPin, SPI_CLK := clkPin, SPI_CS := csPin, maxDevices := numDevices,
    status := fun j => if j < 64 then 0 else raw.status j,
    spidata := raw.spidata,
    bus := raw.bus ++
      [BusEvent.pinMode dataPin PinMode.OUTPUT, BusEvent.pinMode clkPin PinMode.OUTPUT,
        BusEvent.pinMode csPin PinMode.OUTPUT, BusEvent.digitalWrite csPin Level.HIGH] }

/-- The object after the constructor's initialisation of device `i`: display
test off, scan limit 7, decode mode 0, rows 0 to 7 cleared, shutdown. -/
def deviceInit (i : Nat) (s : LedControl) : LedControl :=
  transact
    (rowWrites (fun _ _ => 0) i 8 0
      (transact (transact (transact s i OP_DISPLAYTEST 0) i OP_SCANLIMIT 7) i OP_DECODEMODE 0))
    i OP_SHUTDOWN 0

/-- The object after the constructor's initialisation of the `k` devices
`i`, `i + 1`, ..., `i + k - 1`. -/
def deviceInits : Nat → Nat → LedControl → LedControl
  | 0, _, s => s
  | k + 1, i, s => deviceInits k (i + 1) (deviceInit i s)

/-- The bus trace of the constructor's initialisation of device `i`: the
writes of display test, scan limit, decode mode, rows 0 to 7 and shutdown, in
this order. -/
def deviceInitEvents (s : LedControl) (i : Nat) : List BusEvent :=
  transferEvents s i OP_DISPLAYTEST 0
    ++ transferEvents s i OP_SCANLIMIT 7
    ++ transferEvents s i OP_DECODEMODE 0
    ++ (List.range 8).flatMap (fun r => transferEvents s i (r + 1) 0)
    ++ transferEvents s i OP_SHUTDOWN 0

/-- The content the constructor gives to register `a` of a device whose
content was `old`: 0 for display test (15), decode mode (9), shutdown (12) and
the eight digit registers (1 to 8), 7 for scan limit (11); no other register is
written. -/
def initReg (a old : Nat) : Nat :=
  if a = OP_DISPLAYTEST ∨ a = OP_DECODEMODE ∨ a = OP_SHUTDOWN ∨ (1 ≤ a ∧ a ≤ 8) then 0
  else if a = OP_SCANLIMIT then 7
  else old

/-- Shadow and hardware agree: on a chain of `n` devices whose register files
were `regs0` at the start of the trace, the digit register `r + 1` of every
device `d < n` holds the shadow byte `status[d*8+r]`. -/
def Consistent (n : Nat) (regs0 : Nat → Nat → Nat) (s : LedControl) : Prop :=
  ∀ d r, d < n → r ≤ 7 → (replay n regs0 s.bus).regs d (r + 1) = s.status (d * 8 + r)

/-- The byte `setDigit` and `setChar` store for the glyph `v`. -/
def glyphByte (v : Nat) (dp : Bool) : Nat :=
  if dp then (v ||| B10000000) % 256 else v

/-- The index `setChar` uses for the character code `value`. -/
def charIndex (value : Nat) : Nat :=
  if value % 256 > 127 then 32 else value % 256


/-- The bytes shifted out on the bus, in transmission order. -/
def sentBytes : List BusEvent → List Nat
  | [] => []
  | BusEvent.shiftOut _ _ _ v :: es => v :: sentBytes es
  | BusEvent.digitalWrite _ _ :: es => sentBytes es
  | BusEvent.pinMode _ _ :: es => sentBytes es

/-- An object for a chain of three devices, with an empty bus trace, used to
instantiate the theorems below. -/
def demo3 : LedControl :=
  { SPI_MOSI := 12, SPI_CLK := 11, SPI_CS := 10, maxDevices := 3,
    status := fun _ => 0,
    spidata := fun _ => 85,
    bus := [] }


/-- The device a public call is addressed to (`getDeviceCount` is addressed to
none). -/
def Op.target : Op → Option Nat
  | .getDeviceCount => none
  | .shutdown addr _ => some addr
  | .setScanLimit addr _ => some addr
  | .setIntensity addr _ => some addr
  | .clearDisplay addr => some addr
  | .setLed addr _ _ _ => some addr
  | .setRow addr _ _ => some addr
  | .setColumn addr _ _ => some addr
  | .setDigit addr _ _ _ => some addr
  | .setChar addr _ _ _ => some addr

/-- The step from `s` to `t` touches device `d` only: device count and pins
are kept, the shadow bytes of every other device are kept, the bus trace grows
by transactions that carry an `(opcode, data)` pair in the slot of device `d`
and the no-op pair in every other slot, and the registers of every other
device are as before. -/
def Isolated (d : Nat) (s t : LedControl) : Prop :=
  t.maxDevices = s.maxDevices ∧ t.SPI_MOSI = s.SPI_MOSI ∧ t.SPI_CLK = s.SPI_CLK
    ∧ t.SPI_CS = s.SPI_CS
    ∧ (∀ e r, e ≠ d → r ≤ 7 → t.status (e * 8 + r) = s.status (e * 8 + r))
    ∧ (∃ fs : List (Nat × Nat),
        t.bus = s.bus ++ fs.flatMap (fun p => transferEvents s d p.1 p.2))
    ∧ (∀ (regs0 : Nat → Nat → Nat) (e a : Nat), e ≠ d →
        (replay s.maxDevices regs0 t.bus).regs e a
          = (replay s.maxDevices regs0 s.bus).regs e a)


/-! ## Instrumented semantics

The member functions once more, each one the same text as above with a note
taken at every access to `status` and `spidata` and at every evaluation of
`addr * 8`, `addr * 8 + row`, `addr * 2`, `addr * 2 + 1` and `maxDevices * 2`. -/

/-- One observation made while a member function runs: the element
`status[i]` is read or written, the element `spidata[i]` is read or written,
or one of the index computations is evaluated, `v` being its exact value
(computed without reduction modulo 256). -/
inductive Access
  | status (i : Nat)
  | spidata (i : Nat)
  | arith8 (v : Nat)
  deriving DecidableEq

/-- The observation is within bounds on a chain of `n` devices: a shadow index
is below 64, a transfer-buffer index is below `2 * n` and `2 * n` is at most
16, an index computation fits in 8 bits. -/
def Access.Safe (n : Nat) : Access → Prop
  | .status i => i < 64
  | .spidata i => i < 2 * n ∧ 2 * n ≤ 16
  | .arith8 v => v < 256

/-- The object together with the observations made so far. -/
structure Traced where
  obj : LedControl
  log : List Access

/-- Take a note. -/
def Traced.note (t : Traced) (a : Access) : Traced :=
  { t with log := t.log ++ [a] }

/-- Record one call into the Arduino core. -/
def Traced.emit (t : Traced) (e : BusEvent) : Traced :=
  { t with obj := t.obj.emit e }

/-- Assignment `status[i] = v`, noted. -/
def Traced.writeStatus (t : Traced) (i v : Nat) : Option Traced :=
  (t.obj.writeStatus i v).map fun o => { obj := o, log := t.log ++ [Access.status i] }

/-- Assignment `spidata[i] = v`, noted. -/
def Traced.writeSpidata (t : Traced) (i v : Nat) : Option Traced :=
  (t.obj.writeSpidata i v).map fun o => { obj := o, log := t.log ++ [Access.spidata i] }

/-- The body of the second loop of `spiTransfer` (line 247), instrumented. -/
def Traced.shiftOutByte (i : Nat) (t : Traced) : Option Traced := do
  let b ← t.obj.readSpidata (i - 1)
  let t := t.note (.spidata (i - 1))
  pure (t.emit (.shiftOut t.obj.SPI_MOSI t.obj.SPI_CLK .MSBFIRST b))

/-- Member function `LedControl::spiTransfer` (lines 231-250), instrumented. -/
def Traced.spiTransfer (t : Traced) (addr opcode data : Nat) : Option Traced := do
  let offset := (addr * 2) % 256
  let t := t.note (.arith8 (addr * 2))
  let maxbytes := (t.obj.maxDevices * 2) % 256
  let t := t.note (.arith8 (t.obj.maxDevices * 2))
  let t ← forUp (fun i t => t.writeSpidata i 0) (maxbytes - 0) 0 t
  let t := t.note (.arith8 (offset + 1))
  let t ← t.writeSpidata (offset + 1) opcode
  let t ← t.writeSpidata offset data
  let t := t.emit (.digitalWrite t.obj.SPI_CS .LOW)
  let t ← forDown Traced.shiftOutByte maxbytes t
  pure (t.emit (.digitalWrite t.obj.SPI_CS .HIGH))

/-- Member function `LedControl::shutdown` (lines 86-95), instrumented. -/
def Traced.shutdown (t : Traced) (addr : Nat) (b : Bool) : Option Traced :=
  if addr ≥ t.obj.maxDevices then some t
  else if b then t.spiTransfer addr OP_SHUTDOWN 0
  else t.spiTransfer addr OP_SHUTDOWN 1

/-- Member function `LedControl::setScanLimit` (lines 97-104), instrumented. -/
def Traced.setScanLimit (t : Traced) (addr limit : Nat) : Option Traced :=
  if addr ≥ t.obj.maxDevices then some t
  else if limit ≥ 0 ∧ limit < 8 then t.spiTransfer addr OP_SCANLIMIT limit
  else some t

/-- Member function `LedControl::setIntensity` (lines 106-113), instrumented. -/
def Traced.setIntensity (t : Traced) (addr intensity : Nat) : Option Traced :=
  if addr ≥ t.obj.maxDevices then some t
  else if intensity ≥ 0 ∧ intensity < 16 then t.spiTransfer addr OP_INTENSITY intensity
  else some t

/-- The body of the loop of `clearDisplay` (lines 125-126), instrumented. -/
def Traced.clearRow (addr offset i : Nat) (t : Traced) : Option Traced := do
  let t := t.note (.arith8 (offset + i))
  let t ← t.writeStatus (offset + i) 0
  let t := t.note (.arith8 (offset + i))
  let v ← t.obj.readStatus (offset + i)
  let t := t.note (.status (offset + i))
  t.spiTransfer addr ((i + 1) % 256) v

/-- Member function `LedControl::clearDisplay` (lines 115-128), instrumented. -/
def Traced.clearDisplay (t : Traced) (addr : Nat) : Option Traced :=
  if addr ≥ t.obj.maxDevices then some t
  else
    let offset := (addr * 8) % 256
    let t := t.note (.arith8 (addr * 8))
    forUp (Traced.clearRow addr offset) (8 - 0) 0 t

/-- Member function `LedControl::setLed` (lines 130-151), instrumented. -/
def Traced.setLed (t : Traced) (addr row column : Nat) (state : Bool) : Option Traced :=
  if addr ≥ t.obj.maxDevices then some t
  else if row > 7 ∨ column > 7 then some t
  else do
    let offset := (addr * 8) % 256
    let t := t.note (.arith8 (addr * 8))
    let val := (B10000000 >>> column) % 256
    let t ←
      if state then do
        let t := t.note (.arith8 (offset + row))
        let old ← t.obj.readStatus (offset + row)
        let t := t.note (.status (offset + row))
        let t := t.note (.arith8 (offset + row))
        t.writeStatus (offset + row) ((old ||| val) % 256)
      else do
        let val := (255 - val) % 256
        let t := t.note (.arith8 (offset + row))
        let old ← t.obj.readStatus (offset + row)
        let t := t.note (.status (offset + row))
        let t := t.note (.arith8 (offset + row))
        t.writeStatus (offset + row) ((old &&& val) % 256)
    let t := t.note (.arith8 (offset + row))
    let v ← t.obj.readStatus (offset + row)
    let t := t.note (.status (offset + row))
    t.spiTransfer addr ((row + 1) % 256) v

/-- Member function `LedControl::setRow` (lines 153-165), instrumented. -/
def Traced.setRow (t : Traced) (addr row value : Nat) : Option Traced :=
  if addr ≥ t.obj.maxDevices then some t
  else if row > 7 then some t
  else do
    let offset := (addr * 8) % 256
    let t := t.note (.arith8 (addr * 8))
    let t := t.note (.arith8 (offset + row))
    let t ← t.writeStatus (offset + row) value
    let t := t.note (.arith8 (offset + row))
    let v ← t.obj.readStatus (offset + row)
    let t := t.note (.status (offset + row))
    t.spiTransfer addr ((row + 1) % 256) v

/-- Member function `LedControl::setColumn` (lines 167-183), instrumented. -/
def Traced.setColumn (t : Traced) (addr col value : Nat) : Option Traced :=
  if addr ≥ t.obj.maxDevices then some t
  else if col > 7 then some t
  else
    forUp
      (fun row t =>
        let val := (value >>> (7 - row)) % 256
        let val := (val &&& 0x01) % 256
        t.setLed addr row col (decide (val ≠ 0)))
      (8 - 0) 0 t

/-- Member function `LedControl::setDigit` (lines 186-203), instrumented. -/
def Traced.setDigit (charTable : Nat → Nat) (t : Traced) (addr digit value : Nat) (dp : Bool) :
    Option Traced :=
  if addr ≥ t.obj.maxDevices then some t
  else if digit > 7 ∨ value > 15 then some t
  else do
    let offset := (addr * 8) % 256
    let t := t.note (.arith8 (addr * 8))
    let v ← readCharTable charTable value
    let v := if dp then (v ||| B10000000) % 256 else v
    let t := t.note (.arith8 (offset + digit))
    let t ← t.writeStatus (offset + digit) v
    t.spiTransfer addr ((digit + 1) % 256) v

/-- Member function `LedControl::setChar` (lines 205-228), instrumented. -/
def Traced.setChar (charTable : Nat → Nat) (t : Traced) (addr digit value : Nat) (dp : Bool) :
    Option Traced :=
  if addr ≥ t.obj.maxDevices then some t
  else if digit > 7 then some t
  else do
    let offset := (addr * 8) % 256
    let t := t.note (.arith8 (addr * 8))
    let index := value % 256
    let index := if index > 127 then 32 else index
    let v ← readCharTable charTable index
    let v := if dp then (v ||| B10000000) % 256 else v
    let t := t.note (.arith8 (offset + digit))
    let t ← t.writeStatus (offset + digit) v
    t.spiTransfer addr ((digit + 1) % 256) v

/-- Effect of one public call, instrumented. -/
def Op.runTraced (charTable : Nat → Nat) (t : Traced) : Op → Option Traced
  | .getDeviceCount => some t
  | .shutdown addr b => t.shutdown addr b
  | .setScanLimit addr limit => t.setScanLimit addr limit
  | .setIntensity addr intensity => t.setIntensity addr intensity
  | .clearDisplay addr => t.clearDisplay addr
  | .setLed addr row column state => t.setLed addr row column state
  | .setRow addr row value => t.setRow addr row value
  | .setColumn addr col value => t.setColumn addr col value
  | .setDigit addr digit value dp => Traced.setDigit charTable t addr digit value dp
  | .setChar addr digit value dp => Traced.setChar charTable t addr digit value dp

/-- The instrumented run follows the plain one: whenever the plain run `orig`
returns an object, the instrumented run `res`, started from `t`, returns the
same object, and every note it adds to the log of `t` is within bounds. -/
def Tracks (n : Nat) (orig : Option LedControl) (t : Traced) (res : Option Traced) : Prop :=
  ∀ o, orig = some o → ∃ l, res = some { obj := o, log := t.log ++ l } ∧ ∀ a ∈ l, a.Safe n


/-- The assignments of the constructor up to the zeroing of `status`
(lines 47-66), instrumented. -/
def Traced.constructFields (raw : Traced) (dataPin clkPin csPin numDevices : Nat) :
    Option Traced := do
  let s := { raw.obj with SPI_MOSI := dataPin }
  let s := { s with SPI_CLK := clkPin }
  let s := { s with SPI_CS := csPin }
  let s := { s with maxDevices := numDevices }
  let s := if s.maxDevices > 8 then { s with maxDevices := 8 } else s
  let s := { s with maxDevices := numDevices }
  let s := s.emit (.pinMode s.SPI_MOSI .OUTPUT)
  let s := s.emit (.pinMode s.SPI_CLK .OUTPUT)
  let s := s.emit (.pinMode s.SPI_CS .OUTPUT)
  let s := s.emit (.digitalWrite s.SPI_CS .HIGH)
  let s := { s with SPI_MOSI := dataPin }
  forUp (fun i t => t.writeStatus i 0x00) (64 - 0) 0 { raw with obj := s }

/-- The body of the constructor's loop over the devices (lines 70-77),
instrumented. -/
def Traced.constructDevice (i : Nat) (t : Traced) : Option Traced := do
  let t ← t.spiTransfer i OP_DISPLAYTEST 0
  let t ← t.setScanLimit i 7
  let t ← t.spiTransfer i OP_DECODEMODE 0
  let t ← t.clearDisplay i
  t.shutdown i true

/-- The constructor `LedControl::LedControl` (lines 45-79), instrumented. -/
def Traced.construct (raw : Traced) (dataPin clkPin csPin numDevices : Nat) :
    Option Traced := do
  let t ← raw.constructFields dataPin clkPin csPin numDevices
  forUp Traced.constructDevice (t.obj.maxDevices - 0) 0 t

/-- An object for a chain of two devices with a non-trivial shadow, used to
instantiate the theorems below. -/
def demo : LedControl :=
  { SPI_MOSI := 12, SPI_CLK := 11, SPI_CS := 10, maxDevices := 2,
    status := fun i => if i = 1 then 128 else if i = 9 then 129 else 0,
    spidata := fun _ => 85,
    bus := [] }

/-- An object as found before construction: arbitrary fields, arrays filled
with arbitrary bytes, no call made to the Arduino core yet. -/
def rawObject : LedControl :=
  { SPI_MOSI := 0, SPI_CLK := 0, SPI_CS := 0, maxDevices := 0,
    status := fun _ => 170, spidata := fun _ => 85, bus := [] }

end LedControl

namespace LedControl

theorem writeSpidata_eq (s : LedControl) (i v : Nat) (h : i < 16) :
    s.writeSpidata i v = some { s with spidata := Function.update s.spidata i v } := by
  simp [writeSpidata, spidataSize, h]

theorem readSpidata_eq (s : LedControl) (i : Nat) (h : i < 16) :
    s.readSpidata i = some (s.spidata i) := by
  simp [readSpidata, spidataSize, h]

theorem writeStatus_eq (s : LedControl) (i v : Nat) (h : i < 64) :
    s.writeStatus i v = some { s with status := Function.update s.status i v } := by
  simp [writeStatus, statusSize, h]

theorem readStatus_eq (s : LedControl) (i : Nat) (h : i < 64) :
    s.readStatus i = some (s.status i) := by
  simp [readStatus, statusSize, h]

theorem forUp_zeroFill (k : Nat) : ∀ (i : Nat) (s : LedControl), i + k ≤ 16 →
    forUp (fun i t => t.writeSpidata i 0) k i s
      = some { s with spidata := fun j => if i ≤ j ∧ j < i + k then 0 else s.spidata j } := by
  induction k with
  | zero =>
    intro i s _
    simp only [forUp]
    congr 1
    obtain ⟨a, b, c, n, st, sp, tr⟩ := s
    simp only [LedControl.mk.injEq, true_and, and_true]
    funext j
    have : ¬ (i ≤ j ∧ j < i) := by omega
    simp [this]
  | succ k ih =>
    intro i s h
    rw [forUp, writeSpidata_eq _ _ _ (by omega), Option.some_bind, ih (i + 1) _ (by omega)]
    congr 1
    obtain ⟨a, b, c, n, st, sp, tr⟩ := s
    simp only [LedControl.mk.injEq, true_and, and_true]
    funext j
    by_cases hj : j = i
    · subst hj
      have : ¬ (j + 1 ≤ j ∧ j < j + 1 + k) := by omega
      have h2 : (j ≤ j ∧ j < j + (k + 1)) := by omega
      simp [this, h2]
    · by_cases h1 : i + 1 ≤ j ∧ j < i + 1 + k
      · have h2 : (i ≤ j ∧ j < i + (k + 1)) := by omega
        simp [h1, h2]
      · have h2 : ¬ (i ≤ j ∧ j < i + (k + 1)) := by omega
        simp [h1, h2, Function.update_noteq hj]

theorem forDown_shift (m : Nat) : ∀ (s : LedControl), m ≤ 16 →
    forDown shiftOutByte m s
      = some { s with bus := (s.bus ++ (List.range m).map
          (fun i => BusEvent.shiftOut s.SPI_MOSI s.SPI_CLK BitOrder.MSBFIRST
            (s.spidata (m - 1 - i)))) } := by
  induction m with
  | zero =>
    intro s _
    simp [forDown]
  | succ m ih =>
    intro s h
    rw [forDown, shiftOutByte]
    simp only [Nat.add_sub_cancel, Option.bind_eq_bind, Option.pure_def]
    rw [readSpidata_eq _ _ (by omega), Option.some_bind, Option.some_bind, ih _ (by omega)]
    congr 1
    obtain ⟨a, b, c, n, st, sp, tr⟩ := s
    simp only [emit, LedControl.mk.injEq, true_and, and_true]
    rw [List.range_succ_eq_map]
    simp only [List.map_cons, List.map_map, List.append_assoc, List.singleton_append,
      Nat.sub_zero, Nat.add_sub_cancel]
    congr 2
    apply List.map_congr_left
    intro i hi
    simp only [Function.comp, Nat.succ_eq_add_one]
    congr 2
    have := List.mem_range.mp hi
    omega

theorem frameBuffer_eq_update (sp : Nat → Nat) (n addr opcode data : Nat) (h : addr < n) :
    Function.update
        (Function.update (fun j => if 0 ≤ j ∧ j < 0 + 2 * n then 0 else sp j)
          (2 * addr + 1) opcode)
        (2 * addr) data
      = frameBuffer sp n addr opcode data := by
  funext j
  simp only [frameBuffer, slotByte, Function.update_apply]
  by_cases h0 : j = 2 * addr
  · subst h0
    simp [h]
  · by_cases h1 : j = 2 * addr + 1
    · subst h1
      have : 2 * addr + 1 < 2 * n := by omega
      simp [this]
    · simp [h0, h1]

theorem spiTransfer_eq (s : LedControl) (addr opcode data : Nat)
    (h8 : s.maxDevices ≤ 8) (hk : addr < s.maxDevices) :
    s.spiTransfer addr opcode data = some (s.transact addr opcode data) := by
  have hm : s.maxDevices * 2 % 256 = 2 * s.maxDevices := by omega
  have ha : addr * 2 % 256 = 2 * addr := by omega
  simp only [spiTransfer, hm, ha, Nat.sub_zero, Option.bind_eq_bind, Option.pure_def]
  rw [forUp_zeroFill _ _ _ (by omega), Option.some_bind,
    writeSpidata_eq _ _ _ (by omega), Option.some_bind,
    writeSpidata_eq _ _ _ (by omega), Option.some_bind,
    forDown_shift _ _ (by omega), Option.some_bind]
  congr 1
  obtain ⟨a, b, c, n, st, sp, tr⟩ := s
  simp only [transact, emit, LedControl.mk.injEq, true_and, transferEvents, frameEvents,
    List.append_assoc, frameBuffer_eq_update _ _ _ _ _ hk, List.singleton_append,
    List.cons_append, List.nil_append]
  refine List.append_cancel_left_eq _ _ _ |>.mpr ?_
  simp only [List.cons.injEq, true_and]
  congr 1
  apply List.map_congr_left
  intro i hi
  have := List.mem_range.mp hi
  have h2 : 2 * n - 1 - i < 2 * n := by omega
  simp [frameBuffer, h2]

@[simp] theorem transact_maxDevices (s : LedControl) (addr opcode data : Nat) :
    (s.transact addr opcode data).maxDevices = s.maxDevices := rfl

@[simp] theorem transact_status (s : LedControl) (addr opcode data : Nat) :
    (s.transact addr opcode data).status = s.status := rfl

@[simp] theorem transact_bus (s : LedControl) (addr opcode data : Nat) :
    (s.transact addr opcode data).bus = s.bus ++ transferEvents s addr opcode data := rfl

@[simp] theorem transact_spidata (s : LedControl) (addr opcode data : Nat) :
    (s.transact addr opcode data).spidata
      = frameBuffer s.spidata s.maxDevices addr opcode data := rfl

@[simp] theorem transact_SPI_MOSI (s : LedControl) (addr opcode data : Nat) :
    (s.transact addr opcode data).SPI_MOSI = s.SPI_MOSI := rfl

@[simp] theorem transact_SPI_CLK (s : LedControl) (addr opcode data : Nat) :
    (s.transact addr opcode data).SPI_CLK = s.SPI_CLK := rfl

@[simp] theorem transact_SPI_CS (s : LedControl) (addr opcode data : Nat) :
    (s.transact addr opcode data).SPI_CS = s.SPI_CS := rfl

@[simp] theorem transact_transferEvents (s : LedControl) (addr opcode data a o d : Nat) :
    transferEvents (s.transact addr opcode data) a o d = transferEvents s a o d := rfl

theorem setRow_eq (s : LedControl) (addr row value : Nat)
    (h8 : s.maxDevices ≤ 8) (hk : addr < s.maxDevices) (hr : row ≤ 7) :
    s.setRow addr row value = some (s.rowWrite addr row value) := by
  have ha : addr * 8 % 256 = addr * 8 := by omega
  have hr1 : (row + 1) % 256 = row + 1 := by omega
  have h1 : ¬ (addr ≥ s.maxDevices) := by omega
  have h2 : ¬ (row > 7) := by omega
  simp only [setRow, h1, h2, if_false, ha, hr1, Option.bind_eq_bind]
  rw [writeStatus_eq _ _ _ (by omega), Option.some_bind, readStatus_eq _ _ (by omega),
    Option.some_bind, spiTransfer_eq _ _ _ _ (by simpa using h8) (by simpa using hk)]
  simp [rowWrite]

theorem setLed_eq (s : LedControl) (addr row column : Nat) (state : Bool)
    (h8 : s.maxDevices ≤ 8) (hk : addr < s.maxDevices) (hr : row ≤ 7) (hc : column ≤ 7) :
    s.setLed addr row column state
      = some (s.rowWrite addr row (ledByte (s.status (addr * 8 + row)) column state)) := by
  have ha : addr * 8 % 256 = addr * 8 := by omega
  have hr1 : (row + 1) % 256 = row + 1 := by omega
  have h1 : ¬ (addr ≥ s.maxDevices) := by omega
  have h2 : ¬ (row > 7 ∨ column > 7) := by omega
  simp only [setLed, h1, h2, if_false, ha, hr1, Option.bind_eq_bind]
  cases state
  · simp only [Bool.false_eq_true, if_false, Option.bind_eq_bind]
    rw [readStatus_eq _ _ (by omega), Option.some_bind, writeStatus_eq _ _ _ (by omega),
      Option.some_bind, readStatus_eq _ _ (by omega), Option.some_bind,
      spiTransfer_eq _ _ _ _ (by simpa using h8) (by simpa using hk)]
    simp [rowWrite, ledByte]
  · simp only [if_true, Option.bind_eq_bind]
    rw [readStatus_eq _ _ (by omega), Option.some_bind, writeStatus_eq _ _ _ (by omega),
      Option.some_bind, readStatus_eq _ _ (by omega), Option.some_bind,
      spiTransfer_eq _ _ _ _ (by simpa using h8) (by simpa using hk)]
    simp [rowWrite, ledByte]

@[simp] theorem rowWrite_maxDevices (s : LedControl) (addr row v : Nat) :
    (s.rowWrite addr row v).maxDevices = s.maxDevices := rfl

@[simp] theorem rowWrite_status (s : LedControl) (addr row v : Nat) :
    (s.rowWrite addr row v).status = Function.update s.status (addr * 8 + row) v := rfl

theorem transferEvents_congr (s t : LedControl) (addr opcode data : Nat)
    (h1 : t.SPI_MOSI = s.SPI_MOSI) (h2 : t.SPI_CLK = s.SPI_CLK) (h3 : t.SPI_CS = s.SPI_CS)
    (h4 : t.maxDevices = s.maxDevices) :
    transferEvents t addr opcode data = transferEvents s addr opcode data := by
  simp only [transferEvents, h1, h2, h3, h4]

@[simp] theorem rowWrite_bus (s : LedControl) (addr row v : Nat) :
    (s.rowWrite addr row v).bus = s.bus ++ transferEvents s addr (row + 1) v := rfl

@[simp] theorem rowWrite_transferEvents (s : LedControl) (addr row v a o d : Nat) :
    transferEvents (s.rowWrite addr row v) a o d = transferEvents s a o d := rfl

@[simp] theorem rowWrites_maxDevices (g : Nat → Nat → Nat) (addr k : Nat) :
    ∀ (i : Nat) (s : LedControl), (rowWrites g addr k i s).maxDevices = s.maxDevices := by
  induction k with
  | zero => intro i s; rfl
  | succ k ih => intro i s; rw [rowWrites, ih]; rfl

theorem rowWrites_transferEvents (g : Nat → Nat → Nat) (addr k : Nat) :
    ∀ (i : Nat) (s : LedControl) (a o d : Nat),
      transferEvents (rowWrites g addr k i s) a o d = transferEvents s a o d := by
  induction k with
  | zero => intro i s a o d; rfl
  | succ k ih => intro i s a o d; rw [rowWrites, ih]; rfl

theorem rowWrites_status (g : Nat → Nat → Nat) (addr k : Nat) :
    ∀ (i : Nat) (s : LedControl) (j : Nat),
      (rowWrites g addr k i s).status j
        = if addr * 8 + i ≤ j ∧ j < addr * 8 + i + k then g (j - addr * 8) (s.status j)
          else s.status j := by
  induction k with
  | zero =>
    intro i s j
    have : ¬ (addr * 8 + i ≤ j ∧ j < addr * 8 + i + 0) := by omega
    simp only [rowWrites, this, if_false]
  | succ k ih =>
    intro i s j
    rw [rowWrites, ih, rowWrite_status]
    by_cases hj : j = addr * 8 + i
    · subst hj
      have h1 : ¬ (addr * 8 + (i + 1) ≤ addr * 8 + i ∧ addr * 8 + i < addr * 8 + (i + 1) + k) := by
        omega
      have h2 : addr * 8 + i ≤ addr * 8 + i ∧ addr * 8 + i < addr * 8 + i + (k + 1) := by omega
      have h3 : addr * 8 + i - addr * 8 = i := by omega
      rw [if_neg h1, if_pos h2, Function.update_same, h3]
    · rw [Function.update_noteq hj]
      by_cases h1 : addr * 8 + (i + 1) ≤ j ∧ j < addr * 8 + (i + 1) + k
      · have h2 : addr * 8 + i ≤ j ∧ j < addr * 8 + i + (k + 1) := by omega
        rw [if_pos h1, if_pos h2]
      · have h2 : ¬ (addr * 8 + i ≤ j ∧ j < addr * 8 + i + (k + 1)) := by omega
        rw [if_neg h1, if_neg h2]

theorem rowWrites_bus (g : Nat → Nat → Nat) (addr k : Nat) :
    ∀ (i : Nat) (s : LedControl),
      (rowWrites g addr k i s).bus
        = s.bus ++ (List.range k).flatMap
            (fun r => transferEvents s addr (i + r + 1) (g (i + r) (s.status (addr * 8 + (i + r))))) := by
  induction k with
  | zero => intro i s; simp [rowWrites]
  | succ k ih =>
    intro i s
    rw [rowWrites, ih, rowWrite_bus, List.range_succ_eq_map, List.flatMap_cons, List.flatMap_map,
      List.append_assoc]
    congr 2
    apply List.flatMap_congr
    intro r _
    have e : i + 1 + r = i + Nat.succ r := by simp only [Nat.succ_eq_add_one]; omega
    have hne : addr * 8 + (i + Nat.succ r) ≠ addr * 8 + i := by
      simp only [Nat.succ_eq_add_one]; omega
    rw [rowWrite_transferEvents, rowWrite_status, e, Function.update_noteq hne]

theorem forUp_rowWrites (body : Nat → LedControl → Option LedControl) (g : Nat → Nat → Nat)
    (addr n : Nat)
    (hbody : ∀ (t : LedControl) (i : Nat), t.maxDevices = n → i < 8 →
      body i t = some (t.rowWrite addr i (g i (t.status (addr * 8 + i))))) (k : Nat) :
    ∀ (i : Nat) (s : LedControl), s.maxDevices = n → i + k ≤ 8 →
      forUp body k i s = some (rowWrites g addr k i s) := by
  induction k with
  | zero => intro i s _ _; rfl
  | succ k ih =>
    intro i s hs hik
    rw [forUp, hbody s i hs (by omega), Option.some_bind, ih (i + 1) _ (by simpa using hs) (by omega)]
    rfl

theorem clearDisplay_eq (s : LedControl) (addr : Nat)
    (h8 : s.maxDevices ≤ 8) (hk : addr < s.maxDevices) :
    s.clearDisplay addr = some (rowWrites (fun _ _ => 0) addr 8 0 s) := by
  have ha : addr * 8 % 256 = addr * 8 := by omega
  have h1 : ¬ (addr ≥ s.maxDevices) := by omega
  simp only [clearDisplay, h1, if_false, ha, Nat.sub_zero]
  apply forUp_rowWrites _ _ _ s.maxDevices _ _ _ _ rfl (by omega)
  intro t i ht hi
  have hi1 : (i + 1) % 256 = i + 1 := by omega
  simp only [Option.bind_eq_bind, hi1]
  rw [writeStatus_eq _ _ _ (by omega), Option.some_bind, readStatus_eq _ _ (by omega),
    Option.some_bind, spiTransfer_eq _ _ _ _ (by simpa [ht] using h8) (by simpa [ht] using hk)]
  simp [rowWrite]

theorem setColumn_eq (s : LedControl) (addr col value : Nat)
    (h8 : s.maxDevices ≤ 8) (hk : addr < s.maxDevices) (hc : col ≤ 7) :
    s.setColumn addr col value
      = some (rowWrites (fun r old => ledByte old col (columnFlag value r)) addr 8 0 s) := by
  have h1 : ¬ (addr ≥ s.maxDevices) := by omega
  have h2 : ¬ (col > 7) := by omega
  simp only [setColumn, h1, h2, if_false, Nat.sub_zero]
  apply forUp_rowWrites _ _ _ s.maxDevices _ _ _ _ rfl (by omega)
  intro t i ht hi
  rw [setLed_eq t addr i col _ (by omega) (by omega) (by omega) hc]
  rfl

theorem foldl_step_shift (n mosi clk : Nat) (buf : Nat → Nat) (len : Nat) :
    ∀ (c : Chain),
      ((List.range len).map
          (fun i => BusEvent.shiftOut mosi clk BitOrder.MSBFIRST (buf (len - 1 - i)))).foldl
        (Chain.step n) c
        = { c with shift := (List.range len).map buf ++ c.shift } := by
  induction len with
  | zero => intro c; rfl
  | succ len ih =>
    intro c
    rw [List.range_succ_eq_map, List.map_cons, List.foldl_cons, List.map_map]
    have e : ((fun i => BusEvent.shiftOut mosi clk BitOrder.MSBFIRST (buf (len + 1 - 1 - i)))
          ∘ Nat.succ)
        = fun i => BusEvent.shiftOut mosi clk BitOrder.MSBFIRST (buf (len - 1 - i)) := by
      funext i
      simp only [Function.comp, Nat.succ_eq_add_one]
      congr 2
      omega
    rw [e, ih]
    simp only [Chain.step, Nat.add_sub_cancel, Nat.sub_zero]
    rw [← List.range_succ_eq_map, List.range_succ, List.map_append]
    simp

theorem foldl_step_frameEvents (n mosi clk cs : Nat) (buf : Nat → Nat) (len : Nat) (c : Chain) :
    (frameEvents mosi clk cs buf len).foldl (Chain.step n) c
      = Chain.latch n { c with shift := (List.range len).map buf ++ c.shift } := by
  rw [frameEvents, List.foldl_append, List.foldl_append, foldl_step_shift]
  rfl

theorem getD_frame (buf : Nat → Nat) (len : Nat) (rest : List Nat) (i : Nat) (h : i < len) :
    ((List.range len).map buf ++ rest).getD i 0 = buf i := by
  rw [List.getD_eq_getElem?_getD, List.getElem?_append_left (by simpa using h),
    List.getElem?_map, List.getElem?_range h]
  rfl

theorem regs_transferEvents (n : Nat) (s : LedControl) (addr opcode data : Nat) (c : Chain)
    (hn : s.maxDevices = n) (hk : addr < n) (d a : Nat) :
    ((transferEvents s addr opcode data).foldl (Chain.step n) c).regs d a
      = if d = addr ∧ opcode ≠ 0 ∧ a = opcode then data else c.regs d a := by
  rw [transferEvents, foldl_step_frameEvents, hn]
  simp only [Chain.latch]
  by_cases hd : d < n
  · rw [getD_frame _ _ _ _ (by omega), getD_frame _ _ _ _ (by omega)]
    by_cases hda : d = addr
    · subst hda
      simp [slotByte, hd]
    · have h1 : ¬ (2 * d + 1 = 2 * addr) := by omega
      have h2 : ¬ (2 * d + 1 = 2 * addr + 1) := by omega
      simp [slotByte, hda, h1, h2]
  · have hda : d ≠ addr := by omega
    simp [hd, hda]

theorem replay_append (n : Nat) (regs0 : Nat → Nat → Nat) (xs ys : List BusEvent) :
    replay n regs0 (xs ++ ys) = ys.foldl (Chain.step n) (replay n regs0 xs) := by
  simp only [replay, List.foldl_append]

theorem regs_transact (n : Nat) (regs0 : Nat → Nat → Nat) (s : LedControl)
    (addr opcode data : Nat) (hn : s.maxDevices = n) (hk : addr < n) (d a : Nat) :
    (replay n regs0 (s.transact addr opcode data).bus).regs d a
      = if d = addr ∧ opcode ≠ 0 ∧ a = opcode then data
        else (replay n regs0 s.bus).regs d a := by
  rw [transact_bus, replay_append, regs_transferEvents n s addr opcode data _ hn hk]

theorem shiftRight_lt (c : Nat) : B10000000 >>> c < 256 := by
  rw [B10000000, Nat.shiftRight_eq_div_pow]
  exact lt_of_le_of_lt (Nat.div_le_self _ _) (by decide)

theorem shiftRight_eq_pow (c : Nat) (hc : c ≤ 7) : B10000000 >>> c = 2 ^ (7 - c) := by
  interval_cases c <;> rfl

theorem ledByte_true (old c : Nat) (hb : old < 256) :
    ledByte old c true = old ||| (B10000000 >>> c) := by
  have h : B10000000 >>> c < 256 := shiftRight_lt c
  have h2 : old ||| B10000000 >>> c < 256 := Nat.or_lt_two_pow (n := 8) hb h
  simp only [ledByte, if_true]
  rw [Nat.mod_eq_of_lt h, Nat.mod_eq_of_lt h2]

theorem ledByte_false (old c : Nat) :
    ledByte old c false = old &&& (255 - (B10000000 >>> c)) := by
  have h : B10000000 >>> c < 256 := shiftRight_lt c
  have h3 : 255 - B10000000 >>> c < 256 := lt_of_le_of_lt (Nat.sub_le _ _) (by decide)
  have h2 : old &&& (255 - B10000000 >>> c) < 256 := Nat.and_lt_two_pow (n := 8) _ h3
  simp only [ledByte, Bool.false_eq_true, if_false]
  rw [Nat.mod_eq_of_lt h, Nat.mod_eq_of_lt h3, Nat.mod_eq_of_lt h2]

theorem ledByte_lt (old c : Nat) (state : Bool) : ledByte old c state < 256 := by
  cases state <;> simp only [ledByte, Bool.false_eq_true, if_false, if_true] <;>
    exact Nat.mod_lt _ (by decide)

theorem testBit_compl_mask (c j : Nat) (hc : c ≤ 7) :
    (255 - B10000000 >>> c).testBit j = (decide (j < 8) && !decide (j = 7 - c)) := by
  rw [shiftRight_eq_pow c hc]
  have e : 255 - 2 ^ (7 - c) = 2 ^ 8 - (2 ^ (7 - c) + 1) := by omega
  rw [e, Nat.testBit_two_pow_sub_succ (Nat.pow_lt_pow_right (by omega) (by omega)),
    Nat.testBit_two_pow]
  by_cases h1 : j = 7 - c
  · simp [h1]
  · have h2 : ¬ (7 - c = j) := fun h => h1 h.symm
    simp [h1, h2]

theorem testBit_ledByte (old c : Nat) (state : Bool) (hb : old < 256) (hc : c ≤ 7) (j : Nat) :
    (ledByte old c state).testBit j = if j = 7 - c then state else old.testBit j := by
  cases state
  · rw [ledByte_false, Nat.testBit_land, testBit_compl_mask c j hc]
    by_cases h1 : j = 7 - c
    · simp [h1]
    · by_cases h2 : j < 8
      · simp [h1, h2]
      · have h4 : 2 ^ 8 ≤ 2 ^ j := Nat.pow_le_pow_right (by decide) (by omega)
        have h3 : old.testBit j = false := Nat.testBit_lt_two_pow (lt_of_lt_of_le hb h4)
        simp [h1, h2, h3]
  · rw [ledByte_true old c hb, Nat.testBit_lor, shiftRight_eq_pow c hc, Nat.testBit_two_pow]
    by_cases h1 : j = 7 - c
    · simp [h1]
    · have h2 : ¬ (7 - c = j) := fun h => h1 h.symm
      simp [h1, h2]

theorem columnFlag_eq (value row : Nat) : columnFlag value row = value.testBit (7 - row) := by
  have h1 : ((value >>> (7 - row)) % 256 &&& 1) = (value >>> (7 - row)) % 2 := by
    rw [Nat.and_one_is_mod]
    omega
  have h2 : (value >>> (7 - row)) % 2 % 256 = (value >>> (7 - row)) % 2 := by omega
  rw [columnFlag, h1, h2, Nat.testBit_to_div_mod, Nat.shiftRight_eq_div_pow]
  by_cases h : value / 2 ^ (7 - row) % 2 = 1
  · simp [h]
  · have h0 : value / 2 ^ (7 - row) % 2 = 0 := by omega
    simp [h0]

/-! ## The claims -/

/-- C1: on a chain of `N ≤ 8` devices (`N ≥ 1` follows from `k < N`),
`spiTransfer k opcode data` succeeds and builds its transmit buffer in the
first `2 * N` bytes of `spidata`: `data` at index `2 * k`, `opcode` at index
`2 * k + 1`, zero at every other index below `2 * N`; the buffer has exactly
`2 * N` bytes: the 8-bit length `maxbytes` is `2 * N` and no byte at index
`2 * N` or above is written. -/
theorem spiTransfer_buffer (s : LedControl) (k opcode data : Nat)
    (h8 : s.maxDevices ≤ 8) (hk : k < s.maxDevices) :
    ∃ s', s.spiTransfer k opcode data = some s' ∧
      s.maxDevices * 2 % 256 = 2 * s.maxDevices ∧
      s'.maxDevices = s.maxDevices ∧
      s'.spidata (2 * k) = data ∧
      s'.spidata (2 * k + 1) = opcode ∧
      (∀ i, i < 2 * s.maxDevices → i ≠ 2 * k → i ≠ 2 * k + 1 → s'.spidata i = 0) ∧
      (∀ i, 2 * s.maxDevices ≤ i → s'.spidata i = s.spidata i) := by
  refine ⟨_, spiTransfer_eq s k opcode data h8 hk, by omega, rfl, ?_, ?_, ?_, ?_⟩
  · have h : 2 * k < 2 * s.maxDevices := by omega
    simp [frameBuffer, slotByte, h]
  · have h : 2 * k + 1 < 2 * s.maxDevices := by omega
    simp [frameBuffer, slotByte, h]
  · intro i hi h0 h1
    simp [frameBuffer, slotByte, hi, h0, h1]
  · intro i hi
    have h : ¬ (i < 2 * s.maxDevices) := by omega
    simp [frameBuffer, h]

/-- Instance of `spiTransfer_buffer`: device 1 of the two-device object
`demo`, opcode 9, data 7. -/
theorem spiTransfer_buffer_witness :
    demo.maxDevices ≤ 8 ∧ 1 < demo.maxDevices ∧
    ∃ s', demo.spiTransfer 1 9 7 = some s' ∧
      demo.maxDevices * 2 % 256 = 2 * demo.maxDevices ∧
      s'.maxDevices = demo.maxDevices ∧
      s'.spidata (2 * 1) = 7 ∧
      s'.spidata (2 * 1 + 1) = 9 ∧
      (∀ i, i < 2 * demo.maxDevices → i ≠ 2 * 1 → i ≠ 2 * 1 + 1 → s'.spidata i = 0) ∧
      (∀ i, 2 * demo.maxDevices ≤ i → s'.spidata i = demo.spidata i) :=
  ⟨by decide, by decide, spiTransfer_buffer demo 1 9 7 (by decide) (by decide)⟩

/-- C2: on a chain of `N ≤ 8` devices, `spiTransfer k opcode data` with
`k < N` succeeds and appends to the bus trace exactly: select line low, then
`2 * N` calls of `shiftOut` in `MSBFIRST` order, the `i`-th of them sending the
buffer byte of index `2 * N - 1 - i`, then select line high. -/
theorem spiTransfer_trace (s : LedControl) (k opcode data : Nat)
    (h8 : s.maxDevices ≤ 8) (hk : k < s.maxDevices) :
    ∃ s', s.spiTransfer k opcode data = some s' ∧
      s'.bus = s.bus
        ++ [BusEvent.digitalWrite s.SPI_CS Level.LOW]
        ++ (List.range (2 * s.maxDevices)).map
            (fun i => BusEvent.shiftOut s.SPI_MOSI s.SPI_CLK BitOrder.MSBFIRST
              (s'.spidata (2 * s.maxDevices - 1 - i)))
        ++ [BusEvent.digitalWrite s.SPI_CS Level.HIGH] := by
  refine ⟨_, spiTransfer_eq s k opcode data h8 hk, ?_⟩
  simp only [transact_bus, transferEvents, frameEvents, transact_spidata, List.append_assoc]
  congr 3
  apply List.map_congr_left
  intro i hi
  have := List.mem_range.mp hi
  have h2 : 2 * s.maxDevices - 1 - i < 2 * s.maxDevices := by omega
  simp [frameBuffer, h2]

/-- Instance of `spiTransfer_trace`: device 0 of the two-device object `demo`,
opcode 12, data 1. -/
theorem spiTransfer_trace_witness :
    demo.maxDevices ≤ 8 ∧ 0 < demo.maxDevices ∧
    ∃ s', demo.spiTransfer 0 12 1 = some s' ∧
      s'.bus = demo.bus
        ++ [BusEvent.digitalWrite demo.SPI_CS Level.LOW]
        ++ (List.range (2 * demo.maxDevices)).map
            (fun i => BusEvent.shiftOut demo.SPI_MOSI demo.SPI_CLK BitOrder.MSBFIRST
              (s'.spidata (2 * demo.maxDevices - 1 - i)))
        ++ [BusEvent.digitalWrite demo.SPI_CS Level.HIGH] :=
  ⟨by decide, by decide, spiTransfer_trace demo 0 12 1 (by decide) (by decide)⟩

/-- C3: on a chain of `N ≤ 8` devices, for `d < N`, `r ≤ 7`, `c ≤ 7` and a
shadow byte `old = status[d*8+r]` (a byte, so below 256), `setLed d r c state`
succeeds, replaces that shadow byte by `old | (0x80 >> c)` when `state` is true
and by `old & ~(0x80 >> c)` (the complement taken on 8 bits) when `state` is
false, where `0x80 >> c` is the single bit `7 - c`; it leaves every other
shadow byte unchanged and appends to the bus trace exactly one transaction,
carrying opcode `r + 1` and the new shadow byte in the slot of device `d`. -/
theorem setLed_spec (s : LedControl) (d r c : Nat) (state : Bool)
    (h8 : s.maxDevices ≤ 8) (hd : d < s.maxDevices) (hr : r ≤ 7) (hc : c ≤ 7)
    (hb : s.status (d * 8 + r) < 256) :
    ∃ s', s.setLed d r c state = some s' ∧
      s'.status (d * 8 + r)
        = (if state then s.status (d * 8 + r) ||| (0x80 >>> c)
           else s.status (d * 8 + r) &&& (255 - (0x80 >>> c))) ∧
      0x80 >>> c = 2 ^ (7 - c) ∧
      (∀ j, (s'.status (d * 8 + r)).testBit j
        = if j = 7 - c then state else (s.status (d * 8 + r)).testBit j) ∧
      (∀ i, i ≠ d * 8 + r → s'.status i = s.status i) ∧
      s'.bus = s.bus ++ transferEvents s d (r + 1) (s'.status (d * 8 + r)) := by
  refine ⟨_, setLed_eq s d r c state h8 hd hr hc, ?_, shiftRight_eq_pow c hc, ?_, ?_, ?_⟩
  · rw [rowWrite_status, Function.update_same]
    cases state
    · rw [ledByte_false]; rfl
    · rw [ledByte_true _ _ hb]; rfl
  · intro j
    rw [rowWrite_status, Function.update_same, testBit_ledByte _ _ _ hb hc]
  · intro i hi
    rw [rowWrite_status, Function.update_noteq hi]
  · rw [rowWrite_bus, rowWrite_status, Function.update_same]

/-- Instance of `setLed_spec`: switching on column 7 of row 1 of device 1 of
the two-device object `demo`, whose shadow byte is 129. -/
theorem setLed_spec_witness :
    demo.maxDevices ≤ 8 ∧ 1 < demo.maxDevices ∧ 1 ≤ 7 ∧ 7 ≤ 7 ∧ demo.status (1 * 8 + 1) < 256 ∧
    ∃ s', demo.setLed 1 1 7 true = some s' ∧
      s'.status (1 * 8 + 1)
        = (if true = true then demo.status (1 * 8 + 1) ||| (0x80 >>> 7)
           else demo.status (1 * 8 + 1) &&& (255 - (0x80 >>> 7))) ∧
      0x80 >>> 7 = 2 ^ (7 - 7) ∧
      (∀ j, (s'.status (1 * 8 + 1)).testBit j
        = if j = 7 - 7 then true else (demo.status (1 * 8 + 1)).testBit j) ∧
      (∀ i, i ≠ 1 * 8 + 1 → s'.status i = demo.status i) ∧
      s'.bus = demo.bus ++ transferEvents demo 1 (1 + 1) (s'.status (1 * 8 + 1)) :=
  ⟨by decide, by decide, by decide, by decide, by decide,
    setLed_spec demo 1 1 7 true (by decide) (by decide) (by decide) (by decide) (by decide)⟩

/-- C5: in every state of the object, a call of `shutdown`, `setScanLimit`,
`setIntensity`, `clearDisplay`, `setLed`, `setRow` or `setColumn` with
`addr ≥ maxDevices`, a `setLed`/`setRow` call with `row > 7`, a
`setLed`/`setColumn` call with `column > 7`, a `setIntensity` call with
`intensity > 15` and a `setScanLimit` call with `limit > 7` returns the object
as it was: all shadow bytes are unchanged and nothing is appended to the bus
trace. -/
theorem invalid_noop (s : LedControl) :
    (∀ addr b, s.maxDevices ≤ addr → s.shutdown addr b = some s) ∧
    (∀ addr limit, s.maxDevices ≤ addr ∨ 7 < limit → s.setScanLimit addr limit = some s) ∧
    (∀ addr intensity, s.maxDevices ≤ addr ∨ 15 < intensity →
      s.setIntensity addr intensity = some s) ∧
    (∀ addr, s.maxDevices ≤ addr → s.clearDisplay addr = some s) ∧
    (∀ addr row column state, s.maxDevices ≤ addr ∨ 7 < row ∨ 7 < column →
      s.setLed addr row column state = some s) ∧
    (∀ addr row value, s.maxDevices ≤ addr ∨ 7 < row → s.setRow addr row value = some s) ∧
    (∀ addr col value, s.maxDevices ≤ addr ∨ 7 < col →
      s.setColumn addr col value = some s) := by
  refine ⟨?_, ?_, ?_, ?_, ?_, ?_, ?_⟩
  · intro addr b h
    simp [shutdown, h]
  · intro addr limit h
    by_cases ha : s.maxDevices ≤ addr
    · simp [setScanLimit, ha]
    · have hl : ¬ (limit < 8) := by omega
      simp [setScanLimit, hl]
  · intro addr intensity h
    by_cases ha : s.maxDevices ≤ addr
    · simp [setIntensity, ha]
    · have hl : ¬ (intensity < 16) := by omega
      simp [setIntensity, hl]
  · intro addr h
    simp [clearDisplay, h]
  · intro addr row column state h
    by_cases ha : s.maxDevices ≤ addr
    · simp [setLed, ha]
    · have hl : row > 7 ∨ column > 7 := by omega
      simp [setLed, hl]
  · intro addr row value h
    by_cases ha : s.maxDevices ≤ addr
    · simp [setRow, ha]
    · have hl : row > 7 := by omega
      simp [setRow, hl]
  · intro addr col value h
    by_cases ha : s.maxDevices ≤ addr
    · simp [setColumn, ha]
    · have hl : col > 7 := by omega
      simp [setColumn, hl]

/-- Instance of `invalid_noop` on the two-device object `demo`: one rejected
call of each member function. -/
theorem invalid_noop_witness :
    demo.shutdown 2 true = some demo ∧
    demo.setScanLimit 0 8 = some demo ∧
    demo.setIntensity 1 16 = some demo ∧
    demo.clearDisplay 255 = some demo ∧
    demo.setLed 0 8 0 true = some demo ∧
    demo.setRow 1 9 255 = some demo ∧
    demo.setColumn 0 8 255 = some demo :=
  ⟨(invalid_noop demo).1 2 true (by decide),
    (invalid_noop demo).2.1 0 8 (Or.inr (by decide)),
    (invalid_noop demo).2.2.1 1 16 (Or.inr (by decide)),
    (invalid_noop demo).2.2.2.1 255 (by decide),
    (invalid_noop demo).2.2.2.2.1 0 8 0 true (Or.inr (Or.inl (by decide))),
    (invalid_noop demo).2.2.2.2.2.1 1 9 255 (Or.inr (by decide)),
    (invalid_noop demo).2.2.2.2.2.2 0 8 255 (Or.inr (by decide))⟩

/-- C8: on a chain of `N ≤ 8` devices, for `d < N`, `r ≤ 7` and any `v`,
`setRow d r v` succeeds, sets `status[d*8+r]` to `v` whatever it held, leaves
every other shadow byte unchanged and appends to the bus trace exactly one
transaction, whose frame holds `v` as data and `r + 1` as opcode in the slot
of device `d`; in particular `setRow d r 0xFF` followed by `setRow d r 0x00`
sends data `0xFF`, then data `0x00`, and ends with a cleared shadow byte. -/
theorem setRow_spec (s : LedControl) (d r v : Nat)
    (h8 : s.maxDevices ≤ 8) (hd : d < s.maxDevices) (hr : r ≤ 7) :
    (∃ s', s.setRow d r v = some s' ∧
      s'.status (d * 8 + r) = v ∧
      (∀ i, i ≠ d * 8 + r → s'.status i = s.status i) ∧
      s'.bus = s.bus ++ transferEvents s d (r + 1) v ∧
      slotByte d (r + 1) v (2 * d) = v ∧
      slotByte d (r + 1) v (2 * d + 1) = r + 1) ∧
    (∃ s1 s2, s.setRow d r 0xFF = some s1 ∧ s1.setRow d r 0x00 = some s2 ∧
      s1.status (d * 8 + r) = 0xFF ∧
      s2.status (d * 8 + r) = 0x00 ∧
      s2.bus = s.bus ++ transferEvents s d (r + 1) 0xFF ++ transferEvents s d (r + 1) 0x00) := by
  refine ⟨⟨_, setRow_eq s d r v h8 hd hr, ?_, ?_, rfl, ?_, ?_⟩,
    ⟨_, _, setRow_eq s d r 0xFF h8 hd hr,
      setRow_eq _ d r 0x00 (by simpa using h8) (by simpa using hd) hr, ?_, ?_, ?_⟩⟩
  · rw [rowWrite_status, Function.update_same]
  · intro i hi
    rw [rowWrite_status, Function.update_noteq hi]
  · simp [slotByte]
  · simp [slotByte]
  · rw [rowWrite_status, Function.update_same]
  · rw [rowWrite_status, Function.update_same]
  · rw [rowWrite_bus, rowWrite_bus, rowWrite_transferEvents]

/-- Instance of `setRow_spec`: row 3 of device 1 of the two-device object
`demo`, value `0xA5`. -/
theorem setRow_spec_witness :
    demo.maxDevices ≤ 8 ∧ 1 < demo.maxDevices ∧ 3 ≤ 7 ∧
    ((∃ s', demo.setRow 1 3 0xA5 = some s' ∧
      s'.status (1 * 8 + 3) = 0xA5 ∧
      (∀ i, i ≠ 1 * 8 + 3 → s'.status i = demo.status i) ∧
      s'.bus = demo.bus ++ transferEvents demo 1 (3 + 1) 0xA5 ∧
      slotByte 1 (3 + 1) 0xA5 (2 * 1) = 0xA5 ∧
      slotByte 1 (3 + 1) 0xA5 (2 * 1 + 1) = 3 + 1) ∧
    (∃ s1 s2, demo.setRow 1 3 0xFF = some s1 ∧ s1.setRow 1 3 0x00 = some s2 ∧
      s1.status (1 * 8 + 3) = 0xFF ∧
      s2.status (1 * 8 + 3) = 0x00 ∧
      s2.bus = demo.bus ++ transferEvents demo 1 (3 + 1) 0xFF
        ++ transferEvents demo 1 (3 + 1) 0x00)) :=
  ⟨by decide, by decide, by decide, setRow_spec demo 1 3 0xA5 (by decide) (by decide) (by decide)⟩

theorem setColumn_status (s : LedControl) (d c m : Nat) (i : Nat) :
    (rowWrites (fun r old => ledByte old c (columnFlag m r)) d 8 0 s).status i
      = if d * 8 ≤ i ∧ i < d * 8 + 8 then ledByte (s.status i) c (m.testBit (7 - (i - d * 8)))
        else s.status i := by
  rw [rowWrites_status]
  simp only [Nat.add_zero, columnFlag_eq]

/-- C9: on a chain of `N ≤ 8` devices, for `d < N`, `c ≤ 7`, any bitmask `m`
and shadow bytes of device `d` that are bytes (below 256), `setColumn d c m`
succeeds; afterwards bit `7 - c` of `status[d*8+r]` equals bit `7 - r` of `m`
for each row `r ≤ 7`, every other bit of these eight bytes is unchanged, every
shadow byte outside device `d` is unchanged, and the call appends to the bus
trace exactly 8 transactions, for rows 0 to 7 in this order, the one of row `r`
carrying opcode `r + 1` and the new shadow byte of row `r` in the slot of
device `d`. -/
theorem setColumn_spec (s : LedControl) (d c m : Nat)
    (h8 : s.maxDevices ≤ 8) (hd : d < s.maxDevices) (hc : c ≤ 7)
    (hb : ∀ r, r ≤ 7 → s.status (d * 8 + r) < 256) :
    ∃ s', s.setColumn d c m = some s' ∧
      (∀ r, r ≤ 7 → (s'.status (d * 8 + r)).testBit (7 - c) = m.testBit (7 - r)) ∧
      (∀ r j, r ≤ 7 → j ≠ 7 - c →
        (s'.status (d * 8 + r)).testBit j = (s.status (d * 8 + r)).testBit j) ∧
      (∀ i, i < d * 8 ∨ d * 8 + 8 ≤ i → s'.status i = s.status i) ∧
      s'.bus = s.bus ++ (List.range 8).flatMap
        (fun r => transferEvents s d (r + 1) (s'.status (d * 8 + r))) := by
  refine ⟨_, setColumn_eq s d c m h8 hd hc, ?_, ?_, ?_, ?_⟩
  · intro r hr
    have h1 : d * 8 ≤ d * 8 + r ∧ d * 8 + r < d * 8 + 8 := by omega
    have h2 : d * 8 + r - d * 8 = r := by omega
    rw [setColumn_status, if_pos h1, h2, testBit_ledByte _ _ _ (hb r hr) hc, if_pos rfl]
  · intro r j hr hj
    have h1 : d * 8 ≤ d * 8 + r ∧ d * 8 + r < d * 8 + 8 := by omega
    rw [setColumn_status, if_pos h1, testBit_ledByte _ _ _ (hb r hr) hc, if_neg hj]
  · intro i hi
    have h1 : ¬ (d * 8 ≤ i ∧ i < d * 8 + 8) := by omega
    rw [setColumn_status, if_neg h1]
  · rw [rowWrites_bus]
    congr 1
    apply List.flatMap_congr
    intro r hr
    have hr8 := List.mem_range.mp hr
    have h1 : d * 8 ≤ d * 8 + r ∧ d * 8 + r < d * 8 + 8 := by omega
    have h2 : d * 8 + r - d * 8 = r := by omega
    rw [setColumn_status, if_pos h1, h2]
    simp only [Nat.zero_add, columnFlag_eq]

/-- Instance of `setColumn_spec`: column 2 of device 0 of the two-device
object `demo`, bitmask `0b10100000`. -/
theorem setColumn_spec_witness :
    demo.maxDevices ≤ 8 ∧ 0 < demo.maxDevices ∧ 2 ≤ 7 ∧
    (∀ r, r ≤ 7 → demo.status (0 * 8 + r) < 256) ∧
    ∃ s', demo.setColumn 0 2 0b10100000 = some s' ∧
      (∀ r, r ≤ 7 → (s'.status (0 * 8 + r)).testBit (7 - 2) = (0b10100000).testBit (7 - r)) ∧
      (∀ r j, r ≤ 7 → j ≠ 7 - 2 →
        (s'.status (0 * 8 + r)).testBit j = (demo.status (0 * 8 + r)).testBit j) ∧
      (∀ i, i < 0 * 8 ∨ 0 * 8 + 8 ≤ i → s'.status i = demo.status i) ∧
      s'.bus = demo.bus ++ (List.range 8).flatMap
        (fun r => transferEvents demo 0 (r + 1) (s'.status (0 * 8 + r))) :=
  ⟨by decide, by decide, by decide, by decide,
    setColumn_spec demo 0 2 0b10100000 (by decide) (by decide) (by decide) (by decide)⟩

/-- C10, as stated, fails: on the two-device object `demo`, whose row 1 of
device 0 holds `0b10000000` (column 0 lit), `setColumn 0 0 0b10000000` changes
the shadow byte of row 1 from 128 to 0. -/
theorem setColumn_rows_counterexample :
    demo.maxDevices = 2 ∧ demo.status (0 * 8 + 1) = 128 ∧
    ∃ s', demo.setColumn 0 0 0b10000000 = some s' ∧
      s'.status (0 * 8 + 1) = 0 ∧ s'.status (0 * 8 + 1) ≠ demo.status (0 * 8 + 1) := by
  refine ⟨rfl, rfl, _, setColumn_eq demo 0 0 0b10000000 (by decide) (by decide) (by decide),
    ?_, ?_⟩
  · rw [setColumn_status]
    decide
  · rw [setColumn_status]
    decide

/-- C10, amended: on a chain of `N ≤ 8` devices, for `d < N`, `col ≤ 7` and
shadow bytes of device `d` that are bytes, `setColumn d col 0b10000000`
succeeds; afterwards row 0 of device `d` has the bit of column `col` (bit
`7 - col`) set, each of rows 1 to 7 of device `d` has that bit cleared, the
other seven bits of all eight rows of device `d` are as before, and every
shadow byte of every other device is equal to its value before the call. -/
theorem setColumn_top_bit (s : LedControl) (d col : Nat)
    (h8 : s.maxDevices ≤ 8) (hd : d < s.maxDevices) (hc : col ≤ 7)
    (hb : ∀ r, r ≤ 7 → s.status (d * 8 + r) < 256) :
    ∃ s', s.setColumn d col 0b10000000 = some s' ∧
      (s'.status (d * 8 + 0)).testBit (7 - col) = true ∧
      (∀ r, 1 ≤ r → r ≤ 7 → (s'.status (d * 8 + r)).testBit (7 - col) = false) ∧
      (∀ r j, r ≤ 7 → j ≠ 7 - col →
        (s'.status (d * 8 + r)).testBit j = (s.status (d * 8 + r)).testBit j) ∧
      (∀ i, i < d * 8 ∨ d * 8 + 8 ≤ i → s'.status i = s.status i) := by
  have hbit : ∀ r, r ≤ 7 → (0b10000000 : Nat).testBit (7 - r) = decide (r = 0) := by decide
  refine ⟨_, setColumn_eq s d col 0b10000000 h8 hd hc, ?_, ?_, ?_, ?_⟩
  · have h1 : d * 8 ≤ d * 8 + 0 ∧ d * 8 + 0 < d * 8 + 8 := by omega
    have h2 : d * 8 + 0 - d * 8 = 0 := by omega
    rw [setColumn_status, if_pos h1, h2, testBit_ledByte _ _ _ (hb 0 (by omega)) hc, if_pos rfl]
    decide
  · intro r hr1 hr
    have h1 : d * 8 ≤ d * 8 + r ∧ d * 8 + r < d * 8 + 8 := by omega
    have h2 : d * 8 + r - d * 8 = r := by omega
    have h3 : ¬ (r = 0) := by omega
    rw [setColumn_status, if_pos h1, h2, testBit_ledByte _ _ _ (hb r hr) hc, if_pos rfl,
      hbit r hr]
    simp [h3]
  · intro r j hr hj
    have h1 : d * 8 ≤ d * 8 + r ∧ d * 8 + r < d * 8 + 8 := by omega
    rw [setColumn_status, if_pos h1, testBit_ledByte _ _ _ (hb r hr) hc, if_neg hj]
  · intro i hi
    have h1 : ¬ (d * 8 ≤ i ∧ i < d * 8 + 8) := by omega
    rw [setColumn_status, if_neg h1]

/-- Instance of `setColumn_top_bit`: column 0 of device 0 of the two-device
object `demo`, whose row 1 has column 0 lit before the call. -/
theorem setColumn_top_bit_witness :
    demo.maxDevices ≤ 8 ∧ 0 < demo.maxDevices ∧ 0 ≤ 7 ∧
    (∀ r, r ≤ 7 → demo.status (0 * 8 + r) < 256) ∧
    ∃ s', demo.setColumn 0 0 0b10000000 = some s' ∧
      (s'.status (0 * 8 + 0)).testBit (7 - 0) = true ∧
      (∀ r, 1 ≤ r → r ≤ 7 → (s'.status (0 * 8 + r)).testBit (7 - 0) = false) ∧
      (∀ r j, r ≤ 7 → j ≠ 7 - 0 →
        (s'.status (0 * 8 + r)).testBit j = (demo.status (0 * 8 + r)).testBit j) ∧
      (∀ i, i < 0 * 8 ∨ 0 * 8 + 8 ≤ i → s'.status i = demo.status i) :=
  ⟨by decide, by decide, by decide, by decide,
    setColumn_top_bit demo 0 0 (by decide) (by decide) (by decide) (by decide)⟩

theorem forUp_zeroStatus (k : Nat) : ∀ (i : Nat) (s : LedControl), i + k ≤ 64 →
    forUp (fun i t => t.writeStatus i 0x00) k i s
      = some { s with status := fun j => if i ≤ j ∧ j < i + k then 0 else s.status j } := by
  induction k with
  | zero =>
    intro i s _
    simp only [forUp]
    congr 1
    obtain ⟨a, b, c, n, st, sp, tr⟩ := s
    simp only [LedControl.mk.injEq, true_and, and_true]
    funext j
    have : ¬ (i ≤ j ∧ j < i) := by omega
    simp [this]
  | succ k ih =>
    intro i s h
    rw [forUp, writeStatus_eq _ _ _ (by omega), Option.some_bind, ih (i + 1) _ (by omega)]
    congr 1
    obtain ⟨a, b, c, n, st, sp, tr⟩ := s
    simp only [LedControl.mk.injEq, true_and, and_true]
    funext j
    by_cases hj : j = i
    · subst hj
      have : ¬ (j + 1 ≤ j ∧ j < j + 1 + k) := by omega
      have h2 : (j ≤ j ∧ j < j + (k + 1)) := by omega
      simp [this, h2]
    · by_cases h1 : i + 1 ≤ j ∧ j < i + 1 + k
      · have h2 : (i ≤ j ∧ j < i + (k + 1)) := by omega
        simp [h1, h2]
      · have h2 : ¬ (i ≤ j ∧ j < i + (k + 1)) := by omega
        simp [h1, h2, Function.update_noteq hj]

theorem constructFields_eq (raw : LedControl) (dataPin clkPin csPin numDevices : Nat) :
    constructFields raw dataPin clkPin csPin numDevices
      = some (fieldsObject raw dataPin clkPin csPin numDevices) := by
  simp only [constructFields, Nat.sub_zero]
  rw [forUp_zeroStatus _ _ _ (by omega)]
  congr 1
  by_cases h : numDevices > 8 <;> simp [h, emit, fieldsObject]

theorem shutdown_eq (s : LedControl) (addr : Nat) (b : Bool)
    (h8 : s.maxDevices ≤ 8) (hk : addr < s.maxDevices) :
    s.shutdown addr b = some (s.transact addr OP_SHUTDOWN (if b then 0 else 1)) := by
  have h1 : ¬ (addr ≥ s.maxDevices) := by omega
  cases b <;> simp [shutdown, h1, spiTransfer_eq s addr _ _ h8 hk]

theorem setScanLimit_eq (s : LedControl) (addr limit : Nat)
    (h8 : s.maxDevices ≤ 8) (hk : addr < s.maxDevices) (hl : limit ≤ 7) :
    s.setScanLimit addr limit = some (s.transact addr OP_SCANLIMIT limit) := by
  have h1 : ¬ (addr ≥ s.maxDevices) := by omega
  have h2 : limit < 8 := by omega
  simp [setScanLimit, h1, h2, spiTransfer_eq s addr _ _ h8 hk]

theorem setIntensity_eq (s : LedControl) (addr intensity : Nat)
    (h8 : s.maxDevices ≤ 8) (hk : addr < s.maxDevices) (hl : intensity ≤ 15) :
    s.setIntensity addr intensity = some (s.transact addr OP_INTENSITY intensity) := by
  have h1 : ¬ (addr ≥ s.maxDevices) := by omega
  have h2 : intensity < 16 := by omega
  simp [setIntensity, h1, h2, spiTransfer_eq s addr _ _ h8 hk]

theorem constructDevice_eq (s : LedControl) (i : Nat)
    (h8 : s.maxDevices ≤ 8) (hk : i < s.maxDevices) :
    constructDevice i s = some (deviceInit i s) := by
  simp only [constructDevice, Option.bind_eq_bind]
  rw [spiTransfer_eq _ _ _ _ h8 hk, Option.some_bind,
    setScanLimit_eq _ _ _ (by simpa using h8) (by simpa using hk) (by omega), Option.some_bind,
    spiTransfer_eq _ _ _ _ (by simpa using h8) (by simpa using hk), Option.some_bind,
    clearDisplay_eq _ _ (by simpa using h8) (by simpa using hk), Option.some_bind,
    shutdown_eq _ _ _ (by simpa using h8) (by simpa using hk)]
  rfl

@[simp] theorem deviceInit_maxDevices (i : Nat) (s : LedControl) :
    (deviceInit i s).maxDevices = s.maxDevices := by
  simp [deviceInit]

theorem forUp_constructDevice (k : Nat) : ∀ (i : Nat) (s : LedControl),
    s.maxDevices ≤ 8 → i + k ≤ s.maxDevices →
    forUp constructDevice k i s = some (deviceInits k i s) := by
  induction k with
  | zero => intro i s _ _; rfl
  | succ k ih =>
    intro i s h8 hik
    rw [forUp, constructDevice_eq s i h8 (by omega), Option.some_bind,
      ih (i + 1) _ (by simpa using h8) (by simp only [deviceInit_maxDevices]; omega)]
    rfl

theorem construct_eq (raw : LedControl) (dataPin clkPin csPin numDevices : Nat)
    (h8 : numDevices ≤ 8) :
    construct raw dataPin clkPin csPin numDevices
      = some (deviceInits numDevices 0 (fieldsObject raw dataPin clkPin csPin numDevices)) := by
  simp only [construct, constructFields_eq, Option.bind_eq_bind, Option.some_bind, Nat.sub_zero]
  exact forUp_constructDevice _ _ _ h8 (by simp [fieldsObject])

/-- C6 fails on the code: the constructor assigns `maxDevices = numDevices`
again after the clamp, so for `numDevices = 9` the device count of the object
is 9 and not `min 9 8 = 8`; the device loop that follows then runs
`spiTransfer` with an 18-byte frame and leaves the 16 bytes of `spidata`. -/
theorem construct_deviceCount_unclamped :
    (constructFields rawObject 12 11 10 9).map getDeviceCount = some 9 ∧
    min 9 8 = 8 ∧
    (construct rawObject 12 11 10 9).isNone = true := by
  refine ⟨?_, rfl, ?_⟩
  · rw [constructFields_eq]
    rfl
  · decide

theorem regs_rowWrite (n : Nat) (regs0 : Nat → Nat → Nat) (s : LedControl) (d r v : Nat)
    (hn : s.maxDevices = n) (hk : d < n) (e a : Nat) :
    (replay n regs0 (s.rowWrite d r v).bus).regs e a
      = if e = d ∧ a = r + 1 then v else (replay n regs0 s.bus).regs e a := by
  rw [rowWrite, regs_transact n regs0 _ d (r + 1) v (by simpa using hn) hk]
  simp

theorem regs_rowWrites (n : Nat) (regs0 : Nat → Nat → Nat) (g : Nat → Nat → Nat) (d k : Nat)
    (hk : d < n) :
    ∀ (i : Nat) (s : LedControl), s.maxDevices = n → ∀ (e a : Nat),
      (replay n regs0 (rowWrites g d k i s).bus).regs e a
        = if e = d ∧ i + 1 ≤ a ∧ a ≤ i + k then g (a - 1) (s.status (d * 8 + (a - 1)))
          else (replay n regs0 s.bus).regs e a := by
  induction k with
  | zero =>
    intro i s _ e a
    have h : ¬ (e = d ∧ i + 1 ≤ a ∧ a ≤ i + 0) := by omega
    rw [rowWrites, if_neg h]
  | succ k ih =>
    intro i s hn e a
    rw [rowWrites, ih (i + 1) _ (by simpa using hn), regs_rowWrite n regs0 s d i _ hn hk,
      rowWrite_status]
    by_cases h1 : e = d ∧ i + 1 + 1 ≤ a ∧ a ≤ i + 1 + k
    · have h2 : e = d ∧ i + 1 ≤ a ∧ a ≤ i + (k + 1) := by omega
      have h3 : d * 8 + (a - 1) ≠ d * 8 + i := by omega
      rw [if_pos h1, if_pos h2, Function.update_noteq h3]
    · rw [if_neg h1]
      by_cases h4 : e = d ∧ a = i + 1
      · have h2 : e = d ∧ i + 1 ≤ a ∧ a ≤ i + (k + 1) := by omega
        have h3 : a - 1 = i := by omega
        rw [if_pos h4, if_pos h2, h3]
      · have h2 : ¬ (e = d ∧ i + 1 ≤ a ∧ a ≤ i + (k + 1)) := by omega
        rw [if_neg h4, if_neg h2]

theorem regs_deviceInit (n : Nat) (regs0 : Nat → Nat → Nat) (s : LedControl) (i : Nat)
    (hn : s.maxDevices = n) (hk : i < n) (e a : Nat) :
    (replay n regs0 (deviceInit i s).bus).regs e a
      = if e = i then initReg a ((replay n regs0 s.bus).regs e a)
        else (replay n regs0 s.bus).regs e a := by
  rw [deviceInit, regs_transact n regs0 _ i _ _ (by simpa using hn) hk,
    regs_rowWrites n regs0 _ i 8 hk 0 _ (by simpa using hn),
    regs_transact n regs0 _ i _ _ (by simpa using hn) hk,
    regs_transact n regs0 _ i _ _ (by simpa using hn) hk,
    regs_transact n regs0 _ i _ _ hn hk]
  simp only [OP_SHUTDOWN, OP_DECODEMODE, OP_SCANLIMIT, OP_DISPLAYTEST, initReg]
  by_cases he : e = i
  · simp only [he, true_and, if_true]
    by_cases h12 : a = 12
    · simp [h12]
    · by_cases h18 : 1 ≤ a ∧ a ≤ 8
      · have h18b : 0 + 1 ≤ a ∧ a ≤ 0 + 8 := by omega
        simp [h12, h18, h18b]
      · have h18b : ¬ (0 + 1 ≤ a ∧ a ≤ 0 + 8) := by omega
        by_cases h9 : a = 9
        · simp [h9]
        · by_cases h11 : a = 11
          · simp [h11]
          · by_cases h15 : a = 15
            · simp [h15]
            · simp [h12, h18, h18b, h9, h11, h15]
  · simp [he]

theorem regs_deviceInits (n : Nat) (regs0 : Nat → Nat → Nat) (k : Nat) :
    ∀ (i : Nat) (s : LedControl), s.maxDevices = n → i + k ≤ n → ∀ (e a : Nat),
      (replay n regs0 (deviceInits k i s).bus).regs e a
        = if i ≤ e ∧ e < i + k then initReg a ((replay n regs0 s.bus).regs e a)
          else (replay n regs0 s.bus).regs e a := by
  induction k with
  | zero =>
    intro i s _ _ e a
    have h : ¬ (i ≤ e ∧ e < i + 0) := by omega
    rw [deviceInits, if_neg h]
  | succ k ih =>
    intro i s hn hik e a
    rw [deviceInits, ih (i + 1) _ (by simpa using hn) (by omega),
      regs_deviceInit n regs0 s i hn (by omega)]
    by_cases he : e = i
    · have h1 : ¬ (i + 1 ≤ e ∧ e < i + 1 + k) := by omega
      have h2 : i ≤ e ∧ e < i + (k + 1) := by omega
      rw [if_neg h1, if_pos he, if_pos h2]
    · rw [if_neg he]
      by_cases h1 : i + 1 ≤ e ∧ e < i + 1 + k
      · have h2 : i ≤ e ∧ e < i + (k + 1) := by omega
        rw [if_pos h1, if_pos h2]
      · have h2 : ¬ (i ≤ e ∧ e < i + (k + 1)) := by omega
        rw [if_neg h1, if_neg h2]

theorem deviceInit_status (i : Nat) (s : LedControl) (j : Nat) :
    (deviceInit i s).status j = if i * 8 ≤ j ∧ j < i * 8 + 8 then 0 else s.status j := by
  simp only [deviceInit, transact_status, rowWrites_status, Nat.add_zero]

@[simp] theorem deviceInits_maxDevices (k : Nat) :
    ∀ (i : Nat) (s : LedControl), (deviceInits k i s).maxDevices = s.maxDevices := by
  induction k with
  | zero => intro i s; rfl
  | succ k ih => intro i s; rw [deviceInits, ih, deviceInit_maxDevices]

theorem deviceInits_status_zero (k : Nat) :
    ∀ (i : Nat) (s : LedControl), (∀ j, j < 64 → s.status j = 0) →
      ∀ j, j < 64 → (deviceInits k i s).status j = 0 := by
  induction k with
  | zero => intro i s h j hj; exact h j hj
  | succ k ih =>
    intro i s h j hj
    rw [deviceInits]
    apply ih (i + 1) _ _ j hj
    intro j2 hj2
    rw [deviceInit_status]
    split_ifs
    · rfl
    · exact h j2 hj2

theorem rowWrites_pins (g : Nat → Nat → Nat) (addr k : Nat) :
    ∀ (i : Nat) (s : LedControl),
      (rowWrites g addr k i s).SPI_MOSI = s.SPI_MOSI
        ∧ (rowWrites g addr k i s).SPI_CLK = s.SPI_CLK
        ∧ (rowWrites g addr k i s).SPI_CS = s.SPI_CS := by
  induction k with
  | zero => intro i s; exact ⟨rfl, rfl, rfl⟩
  | succ k ih => intro i s; rw [rowWrites]; exact ih _ _

theorem deviceInit_pins (i : Nat) (s : LedControl) :
    (deviceInit i s).SPI_MOSI = s.SPI_MOSI
      ∧ (deviceInit i s).SPI_CLK = s.SPI_CLK
      ∧ (deviceInit i s).SPI_CS = s.SPI_CS := by
  obtain ⟨h1, h2, h3⟩ := rowWrites_pins (fun _ _ => 0) i 8 0
    (transact (transact (transact s i OP_DISPLAYTEST 0) i OP_SCANLIMIT 7) i OP_DECODEMODE 0)
  rw [deviceInit, transact_SPI_MOSI, transact_SPI_CLK, transact_SPI_CS, h1, h2, h3]
  simp only [transact_SPI_MOSI, transact_SPI_CLK, transact_SPI_CS, and_self]

theorem deviceInits_pins (k : Nat) :
    ∀ (i : Nat) (s : LedControl),
      (deviceInits k i s).SPI_MOSI = s.SPI_MOSI
        ∧ (deviceInits k i s).SPI_CLK = s.SPI_CLK
        ∧ (deviceInits k i s).SPI_CS = s.SPI_CS := by
  induction k with
  | zero => intro i s; exact ⟨rfl, rfl, rfl⟩
  | succ k ih =>
    intro i s
    rw [deviceInits]
    obtain ⟨h1, h2, h3⟩ := ih (i + 1) (deviceInit i s)
    obtain ⟨g1, g2, g3⟩ := deviceInit_pins i s
    exact ⟨h1.trans g1, h2.trans g2, h3.trans g3⟩

theorem deviceInitEvents_congr (s t : LedControl) (i : Nat)
    (h1 : t.SPI_MOSI = s.SPI_MOSI) (h2 : t.SPI_CLK = s.SPI_CLK) (h3 : t.SPI_CS = s.SPI_CS)
    (h4 : t.maxDevices = s.maxDevices) :
    deviceInitEvents t i = deviceInitEvents s i := by
  simp only [deviceInitEvents, transferEvents, h1, h2, h3, h4]

theorem deviceInit_bus (i : Nat) (s : LedControl) :
    (deviceInit i s).bus = s.bus ++ deviceInitEvents s i := by
  simp only [deviceInit, transact_bus, rowWrites_bus, rowWrites_transferEvents,
    transact_transferEvents, deviceInitEvents, List.append_assoc, Nat.zero_add]

theorem deviceInits_bus (k : Nat) :
    ∀ (i : Nat) (s : LedControl),
      (deviceInits k i s).bus
        = s.bus ++ (List.range k).flatMap (fun t => deviceInitEvents s (i + t)) := by
  induction k with
  | zero => intro i s; simp [deviceInits]
  | succ k ih =>
    intro i s
    obtain ⟨g1, g2, g3⟩ := deviceInit_pins i s
    have hf : (List.range k).flatMap (fun t => deviceInitEvents (deviceInit i s) (i + 1 + t))
        = (List.range k).flatMap (fun t => deviceInitEvents s (i + Nat.succ t)) := by
      apply List.flatMap_congr
      intro r _
      have e : i + 1 + r = i + Nat.succ r := by simp only [Nat.succ_eq_add_one]; omega
      rw [e]
      exact deviceInitEvents_congr s _ _ g1 g2 g3 (deviceInit_maxDevices i s)
    rw [deviceInits, ih, deviceInit_bus, hf, List.range_succ_eq_map, List.flatMap_cons,
      List.flatMap_map, List.append_assoc, Nat.add_zero]

theorem initReg_values (old : Nat) :
    initReg OP_DISPLAYTEST old = 0 ∧ initReg OP_SCANLIMIT old = 7 ∧ initReg OP_DECODEMODE old = 0
      ∧ (∀ r, r ≤ 7 → initReg (r + 1) old = 0) ∧ initReg OP_SHUTDOWN old = 0 := by
  refine ⟨by simp [initReg], by simp [initReg, OP_SCANLIMIT, OP_DISPLAYTEST, OP_DECODEMODE,
    OP_SHUTDOWN], by simp [initReg], ?_, by simp [initReg]⟩
  intro r hr
  have h : 1 ≤ r + 1 ∧ r + 1 ≤ 8 := by omega
  simp [initReg, h]

/-- C7: for `n ≤ 8` (in particular `1 ≤ n ≤ 8`, and the `n = 2` of the
scenario) the constructor succeeds on any object `raw`; afterwards the device
count is `n`, all 64 shadow bytes are 0, and replaying the bus trace on a chain
of `n` devices with arbitrary initial register files `regs0`, every device
`d < n` has display test 0, scan limit 7, decode mode 0, the eight digit
registers 0 and shutdown register 0 (low-power mode).  The trace is the four
pin set-up calls followed, for the devices 0 to `n - 1` in this order, by the
writes of display test, scan limit, decode mode, rows 0 to 7 and shutdown. -/
theorem construct_spec (raw : LedControl) (dataPin clkPin csPin n : Nat) (h8 : n ≤ 8) :
    ∃ s, construct raw dataPin clkPin csPin n = some s ∧
      s.getDeviceCount = n ∧
      s.SPI_MOSI = dataPin ∧ s.SPI_CLK = clkPin ∧ s.SPI_CS = csPin ∧
      (∀ j, j < 64 → s.status j = 0) ∧
      (∀ regs0 d, d < n →
        (replay n regs0 s.bus).regs d OP_DISPLAYTEST = 0 ∧
        (replay n regs0 s.bus).regs d OP_SCANLIMIT = 7 ∧
        (replay n regs0 s.bus).regs d OP_DECODEMODE = 0 ∧
        (∀ r, r ≤ 7 → (replay n regs0 s.bus).regs d (r + 1) = 0) ∧
        (replay n regs0 s.bus).regs d OP_SHUTDOWN = 0) ∧
      s.bus = raw.bus
        ++ [BusEvent.pinMode dataPin PinMode.OUTPUT, BusEvent.pinMode clkPin PinMode.OUTPUT,
            BusEvent.pinMode csPin PinMode.OUTPUT, BusEvent.digitalWrite csPin Level.HIGH]
        ++ (List.range n).flatMap
            (fun i =>
              transferEvents s i OP_DISPLAYTEST 0
                ++ transferEvents s i OP_SCANLIMIT 7
                ++ transferEvents s i OP_DECODEMODE 0
                ++ (List.range 8).flatMap (fun r => transferEvents s i (r + 1) 0)
                ++ transferEvents s i OP_SHUTDOWN 0) := by
  obtain ⟨g1, g2, g3⟩ := deviceInits_pins n 0 (fieldsObject raw dataPin clkPin csPin n)
  have g4 := deviceInits_maxDevices n 0 (fieldsObject raw dataPin clkPin csPin n)
  refine ⟨_, construct_eq raw dataPin clkPin csPin n h8, ?_, g1, g2, g3, ?_, ?_, ?_⟩
  · rw [getDeviceCount, g4]
    rfl
  · apply deviceInits_status_zero
    intro j hj
    simp [fieldsObject, hj]
  · intro regs0 d hd
    have hreg : ∀ a, (replay n regs0
          (deviceInits n 0 (fieldsObject raw dataPin clkPin csPin n)).bus).regs d a
        = initReg a ((replay n regs0 (fieldsObject raw dataPin clkPin csPin n).bus).regs d a) := by
      intro a
      have h : 0 ≤ d ∧ d < 0 + n := by omega
      rw [regs_deviceInits n regs0 n 0 _ rfl (by omega), if_pos h]
    obtain ⟨i1, i2, i3, i4, i5⟩ := initReg_values 0
    refine ⟨?_, ?_, ?_, ?_, ?_⟩
    · rw [hreg]; exact (initReg_values _).1
    · rw [hreg]; exact (initReg_values _).2.1
    · rw [hreg]; exact (initReg_values _).2.2.1
    · intro r hr; rw [hreg]; exact (initReg_values _).2.2.2.1 r hr
    · rw [hreg]; exact (initReg_values _).2.2.2.2
  · rw [deviceInits_bus]
    congr 1
    apply List.flatMap_congr
    intro i _
    rw [Nat.zero_add]
    exact (deviceInitEvents_congr _ _ i g1 g2 g3 g4).symm

/-- Instance of `construct_spec`: the two-device chain of the scenario, on
pins 12, 11 and 10, constructed over the object `rawObject`. -/
theorem construct_spec_witness :
    2 ≤ 8 ∧
    ∃ s, construct rawObject 12 11 10 2 = some s ∧
      s.getDeviceCount = 2 ∧
      s.SPI_MOSI = 12 ∧ s.SPI_CLK = 11 ∧ s.SPI_CS = 10 ∧
      (∀ j, j < 64 → s.status j = 0) ∧
      (∀ regs0 d, d < 2 →
        (replay 2 regs0 s.bus).regs d OP_DISPLAYTEST = 0 ∧
        (replay 2 regs0 s.bus).regs d OP_SCANLIMIT = 7 ∧
        (replay 2 regs0 s.bus).regs d OP_DECODEMODE = 0 ∧
        (∀ r, r ≤ 7 → (replay 2 regs0 s.bus).regs d (r + 1) = 0) ∧
        (replay 2 regs0 s.bus).regs d OP_SHUTDOWN = 0) ∧
      s.bus = rawObject.bus
        ++ [BusEvent.pinMode 12 PinMode.OUTPUT, BusEvent.pinMode 11 PinMode.OUTPUT,
            BusEvent.pinMode 10 PinMode.OUTPUT, BusEvent.digitalWrite 10 Level.HIGH]
        ++ (List.range 2).flatMap
            (fun i =>
              transferEvents s i OP_DISPLAYTEST 0
                ++ transferEvents s i OP_SCANLIMIT 7
                ++ transferEvents s i OP_DECODEMODE 0
                ++ (List.range 8).flatMap (fun r => transferEvents s i (r + 1) 0)
                ++ transferEvents s i OP_SHUTDOWN 0) :=
  ⟨by decide, construct_spec rawObject 12 11 10 2 (by decide)⟩

theorem consistent_transact (n : Nat) (regs0 : Nat → Nat → Nat) (s : LedControl)
    (addr opcode data : Nat) (hn : s.maxDevices = n) (hk : addr < n)
    (hop : opcode = 0 ∨ 8 < opcode) (h : Consistent n regs0 s) :
    Consistent n regs0 (s.transact addr opcode data) := by
  intro d r hd hr
  have hne : ¬ (d = addr ∧ opcode ≠ 0 ∧ r + 1 = opcode) := by omega
  rw [regs_transact n regs0 s addr opcode data hn hk, if_neg hne, transact_status]
  exact h d r hd hr

theorem consistent_rowWrite (n : Nat) (regs0 : Nat → Nat → Nat) (s : LedControl)
    (addr row v : Nat) (hn : s.maxDevices = n) (hk : addr < n) (hrow : row ≤ 7)
    (h : Consistent n regs0 s) :
    Consistent n regs0 (s.rowWrite addr row v) := by
  intro d r hd hr
  rw [regs_rowWrite n regs0 s addr row v hn hk, rowWrite_status]
  by_cases hc : d = addr ∧ r + 1 = row + 1
  · have e : d * 8 + r = addr * 8 + row := by omega
    rw [if_pos hc, e, Function.update_same]
  · have e : d * 8 + r ≠ addr * 8 + row := by omega
    rw [if_neg hc, Function.update_noteq e]
    exact h d r hd hr

theorem consistent_rowWrites (n : Nat) (regs0 : Nat → Nat → Nat) (g : Nat → Nat → Nat)
    (addr k : Nat) (hk : addr < n) :
    ∀ (i : Nat) (s : LedControl), s.maxDevices = n → i + k ≤ 8 → Consistent n regs0 s →
      Consistent n regs0 (rowWrites g addr k i s) := by
  induction k with
  | zero => intro i s _ _ h; exact h
  | succ k ih =>
    intro i s hn hik h
    rw [rowWrites]
    exact ih (i + 1) _ (by simpa using hn) (by omega)
      (consistent_rowWrite n regs0 s addr i _ hn hk (by omega) h)

theorem setDigit_eq (charTable : Nat → Nat) (s : LedControl) (addr digit value : Nat) (dp : Bool)
    (h8 : s.maxDevices ≤ 8) (hk : addr < s.maxDevices) (hd : digit ≤ 7) (hv : value ≤ 15) :
    setDigit charTable s addr digit value dp
      = some (s.rowWrite addr digit (glyphByte (charTable value) dp)) := by
  have ha : addr * 8 % 256 = addr * 8 := by omega
  have hr1 : (digit + 1) % 256 = digit + 1 := by omega
  have h1 : ¬ (addr ≥ s.maxDevices) := by omega
  have h2 : ¬ (digit > 7 ∨ value > 15) := by omega
  have h3 : value < charTableSize := by simp only [charTableSize]; omega
  simp only [setDigit, h1, h2, if_false, ha, hr1, Option.bind_eq_bind, readCharTable, h3, if_true,
    Option.some_bind]
  rw [writeStatus_eq _ _ _ (by omega), Option.some_bind,
    spiTransfer_eq _ _ _ _ (by simpa using h8) (by simpa using hk)]
  rfl

theorem charIndex_lt (value : Nat) : charIndex value < charTableSize := by
  simp only [charIndex, charTableSize]
  split_ifs <;> omega

theorem setChar_eq (charTable : Nat → Nat) (s : LedControl) (addr digit value : Nat) (dp : Bool)
    (h8 : s.maxDevices ≤ 8) (hk : addr < s.maxDevices) (hd : digit ≤ 7) :
    setChar charTable s addr digit value dp
      = some (s.rowWrite addr digit (glyphByte (charTable (charIndex value)) dp)) := by
  have ha : addr * 8 % 256 = addr * 8 := by omega
  have hr1 : (digit + 1) % 256 = digit + 1 := by omega
  have h1 : ¬ (addr ≥ s.maxDevices) := by omega
  have h2 : ¬ (digit > 7) := by omega
  have h3 : (if value % 256 > 127 then 32 else value % 256) < charTableSize := charIndex_lt value
  simp only [setChar, h1, h2, if_false, ha, hr1, Option.bind_eq_bind, readCharTable, h3, if_true,
    Option.some_bind]
  rw [writeStatus_eq _ _ _ (by omega), Option.some_bind,
    spiTransfer_eq _ _ _ _ (by simpa using h8) (by simpa using hk)]
  rfl

theorem run_consistent (charTable : Nat → Nat) (n : Nat) (regs0 : Nat → Nat → Nat) (h8 : n ≤ 8)
    (op : Op) (s : LedControl) (hn : s.maxDevices = n) (h : Consistent n regs0 s) :
    ∃ s', op.run charTable s = some s' ∧ s'.maxDevices = n ∧ Consistent n regs0 s' := by
  have hs8 : s.maxDevices ≤ 8 := by omega
  cases op with
  | getDeviceCount => exact ⟨s, rfl, hn, h⟩
  | shutdown addr b =>
    by_cases ha : addr < s.maxDevices
    · exact ⟨_, shutdown_eq s addr b hs8 ha, hn,
        consistent_transact n regs0 s addr _ _ hn (by omega) (Or.inr (by decide)) h⟩
    · refine ⟨s, ?_, hn, h⟩
      have ha2 : addr ≥ s.maxDevices := by omega
      simp [Op.run, shutdown, ha2]
  | setScanLimit addr limit =>
    by_cases ha : addr < s.maxDevices ∧ limit ≤ 7
    · exact ⟨_, setScanLimit_eq s addr limit hs8 ha.1 ha.2, hn,
        consistent_transact n regs0 s addr _ _ hn (by omega) (Or.inr (by decide)) h⟩
    · refine ⟨s, ?_, hn, h⟩
      by_cases ha2 : addr ≥ s.maxDevices
      · simp [Op.run, setScanLimit, ha2]
      · have hl : ¬ (limit < 8) := by omega
        simp [Op.run, setScanLimit, hl]
  | setIntensity addr intensity =>
    by_cases ha : addr < s.maxDevices ∧ intensity ≤ 15
    · exact ⟨_, setIntensity_eq s addr intensity hs8 ha.1 ha.2, hn,
        consistent_transact n regs0 s addr _ _ hn (by omega) (Or.inr (by decide)) h⟩
    · refine ⟨s, ?_, hn, h⟩
      by_cases ha2 : addr ≥ s.maxDevices
      · simp [Op.run, setIntensity, ha2]
      · have hl : ¬ (intensity < 16) := by omega
        simp [Op.run, setIntensity, hl]
  | clearDisplay addr =>
    by_cases ha : addr < s.maxDevices
    · exact ⟨_, clearDisplay_eq s addr hs8 ha, by simpa using hn,
        consistent_rowWrites n regs0 _ addr 8 (by omega) 0 s hn (by omega) h⟩
    · refine ⟨s, ?_, hn, h⟩
      have ha2 : addr ≥ s.maxDevices := by omega
      simp [Op.run, clearDisplay, ha2]
  | setLed addr row column state =>
    by_cases ha : addr < s.maxDevices ∧ row ≤ 7 ∧ column ≤ 7
    · exact ⟨_, setLed_eq s addr row column state hs8 ha.1 ha.2.1 ha.2.2, hn,
        consistent_rowWrite n regs0 s addr row _ hn (by omega) ha.2.1 h⟩
    · refine ⟨s, ?_, hn, h⟩
      by_cases ha2 : addr ≥ s.maxDevices
      · simp [Op.run, setLed, ha2]
      · have hl : row > 7 ∨ column > 7 := by omega
        simp [Op.run, setLed, hl]
  | setRow addr row value =>
    by_cases ha : addr < s.maxDevices ∧ row ≤ 7
    · exact ⟨_, setRow_eq s addr row value hs8 ha.1 ha.2, hn,
        consistent_rowWrite n regs0 s addr row _ hn (by omega) ha.2 h⟩
    · refine ⟨s, ?_, hn, h⟩
      by_cases ha2 : addr ≥ s.maxDevices
      · simp [Op.run, setRow, ha2]
      · have hl : row > 7 := by omega
        simp [Op.run, setRow, hl]
  | setColumn addr col value =>
    by_cases ha : addr < s.maxDevices ∧ col ≤ 7
    · exact ⟨_, setColumn_eq s addr col value hs8 ha.1 ha.2, by simpa using hn,
        consistent_rowWrites n regs0 _ addr 8 (by omega) 0 s hn (by omega) h⟩
    · refine ⟨s, ?_, hn, h⟩
      by_cases ha2 : addr ≥ s.maxDevices
      · simp [Op.run, setColumn, ha2]
      · have hl : col > 7 := by omega
        simp [Op.run, setColumn, hl]
  | setDigit addr digit value dp =>
    by_cases ha : addr < s.maxDevices ∧ digit ≤ 7 ∧ value ≤ 15
    · exact ⟨_, setDigit_eq charTable s addr digit value dp hs8 ha.1 ha.2.1 ha.2.2, hn,
        consistent_rowWrite n regs0 s addr digit _ hn (by omega) ha.2.1 h⟩
    · refine ⟨s, ?_, hn, h⟩
      by_cases ha2 : addr ≥ s.maxDevices
      · simp [Op.run, setDigit, ha2]
      · have hl : digit > 7 ∨ value > 15 := by omega
        simp [Op.run, setDigit, hl]
  | setChar addr digit value dp =>
    by_cases ha : addr < s.maxDevices ∧ digit ≤ 7
    · exact ⟨_, setChar_eq charTable s addr digit value dp hs8 ha.1 ha.2, hn,
        consistent_rowWrite n regs0 s addr digit _ hn (by omega) ha.2 h⟩
    · refine ⟨s, ?_, hn, h⟩
      by_cases ha2 : addr ≥ s.maxDevices
      · simp [Op.run, setChar, ha2]
      · have hl : digit > 7 := by omega
        simp [Op.run, setChar, hl]

theorem runOps_consistent (charTable : Nat → Nat) (n : Nat) (regs0 : Nat → Nat → Nat)
    (h8 : n ≤ 8) (ops : List Op) :
    ∀ (s : LedControl), s.maxDevices = n → Consistent n regs0 s →
      ∃ s', runOps charTable ops s = some s' ∧ s'.maxDevices = n ∧ Consistent n regs0 s' := by
  induction ops with
  | nil => intro s hn h; exact ⟨s, rfl, hn, h⟩
  | cons op ops ih =>
    intro s hn h
    obtain ⟨s1, e1, hn1, h1⟩ := run_consistent charTable n regs0 h8 op s hn h
    obtain ⟨s2, e2, hn2, h2⟩ := ih s1 hn1 h1
    exact ⟨s2, by rw [runOps, e1, Option.some_bind, e2], hn2, h2⟩

theorem construct_consistent (raw : LedControl) (dataPin clkPin csPin n : Nat) (h8 : n ≤ 8)
    (regs0 : Nat → Nat → Nat) :
    Consistent n regs0 (deviceInits n 0 (fieldsObject raw dataPin clkPin csPin n)) := by
  intro d r hd hr
  have hrange : 0 ≤ d ∧ d < 0 + n := by omega
  have hz : ∀ j, j < 64 → (fieldsObject raw dataPin clkPin csPin n).status j = 0 := by
    intro j hj
    simp [fieldsObject, hj]
  rw [regs_deviceInits n regs0 n 0 _ rfl (by omega), if_pos hrange,
    (initReg_values _).2.2.2.1 r hr, deviceInits_status_zero n 0 _ hz _ (by omega)]

/-- C4: for every chain constructed with `n ≤ 8` devices (in particular
`1 ≤ n ≤ 8`) over any object `raw`, any glyph table and every finite
sequence `ops` of public calls with any arguments, the constructor and all the
calls succeed, and afterwards, replaying the whole bus trace on a chain of `n`
devices (each device latching the pair in its own slot, opcode 0 being the
no-op) from arbitrary initial register files `regs0`, the digit register
`r + 1` of every device `d < n` holds the shadow byte `status[d*8+r]`, for
every row `r ≤ 7`. -/
theorem shadow_consistent (charTable : Nat → Nat) (raw : LedControl)
    (dataPin clkPin csPin n : Nat) (h8 : n ≤ 8) (ops : List Op) (regs0 : Nat → Nat → Nat) :
    ∃ s s', construct raw dataPin clkPin csPin n = some s ∧
      runOps charTable ops s = some s' ∧
      s'.getDeviceCount = n ∧
      ∀ d r, d < n → r ≤ 7 →
        (replay n regs0 s'.bus).regs d (r + 1) = s'.status (d * 8 + r) := by
  obtain ⟨s', e, hn, h⟩ := runOps_consistent charTable n regs0 h8 ops
    (deviceInits n 0 (fieldsObject raw dataPin clkPin csPin n))
    (by rw [deviceInits_maxDevices]; rfl)
    (construct_consistent raw dataPin clkPin csPin n h8 regs0)
  exact ⟨_, s', construct_eq raw dataPin clkPin csPin n h8, e, hn, h⟩

/-- Instance of `shadow_consistent`: a two-device chain on which valid and
rejected calls are mixed. -/
theorem shadow_consistent_witness :
    2 ≤ 8 ∧
    ∃ s s', construct rawObject 12 11 10 2 = some s ∧
      runOps (fun k => k)
        [Op.shutdown 0 false, Op.setLed 1 2 3 true, Op.setRow 0 7 255, Op.setColumn 1 2 129,
          Op.setLed 2 0 0 true, Op.setChar 0 1 65 true, Op.clearDisplay 1, Op.setIntensity 0 16]
        s = some s' ∧
      s'.getDeviceCount = 2 ∧
      ∀ d r, d < 2 → r ≤ 7 →
        (replay 2 (fun _ _ => 255) s'.bus).regs d (r + 1) = s'.status (d * 8 + r) :=
  ⟨by decide, shadow_consistent (fun k => k) rawObject 12 11 10 2 (by decide) _ _⟩

/-- C11: on a chain of `N ≤ 8` devices and for `d < N`, `shutdown d true`
succeeds and appends to the bus trace exactly one transaction, carrying opcode
12 (the shutdown register) and data 0 in the slot of device `d`, and
`shutdown d false` succeeds and appends exactly one transaction carrying
opcode 12 and data 1 in the slot of device `d`. -/
theorem shutdown_polarity (s : LedControl) (d : Nat)
    (h8 : s.maxDevices ≤ 8) (hd : d < s.maxDevices) :
    (∃ s', s.shutdown d true = some s' ∧
      s'.bus = s.bus ++ transferEvents s d 12 0 ∧
      slotByte d 12 0 (2 * d + 1) = 12 ∧ slotByte d 12 0 (2 * d) = 0) ∧
    (∃ s', s.shutdown d false = some s' ∧
      s'.bus = s.bus ++ transferEvents s d 12 1 ∧
      slotByte d 12 1 (2 * d + 1) = 12 ∧ slotByte d 12 1 (2 * d) = 1) ∧
    OP_SHUTDOWN = 12 := by
  refine ⟨⟨_, shutdown_eq s d true h8 hd, rfl, ?_, ?_⟩,
    ⟨_, shutdown_eq s d false h8 hd, rfl, ?_, ?_⟩, rfl⟩ <;> simp [slotByte]

/-- Instance of `shutdown_polarity`: device 1 of the two-device object
`demo`. -/
theorem shutdown_polarity_witness :
    demo.maxDevices ≤ 8 ∧ 1 < demo.maxDevices ∧
    (∃ s', demo.shutdown 1 true = some s' ∧
      s'.bus = demo.bus ++ transferEvents demo 1 12 0 ∧
      slotByte 1 12 0 (2 * 1 + 1) = 12 ∧ slotByte 1 12 0 (2 * 1) = 0) ∧
    (∃ s', demo.shutdown 1 false = some s' ∧
      s'.bus = demo.bus ++ transferEvents demo 1 12 1 ∧
      slotByte 1 12 1 (2 * 1 + 1) = 12 ∧ slotByte 1 12 1 (2 * 1) = 1) ∧
    OP_SHUTDOWN = 12 :=
  ⟨by decide, by decide, shutdown_polarity demo 1 (by decide) (by decide)⟩

/-- C12: on a chain of `N ≤ 8` devices, for `d < N`, `level ≤ 15`,
`limit ≤ 7` and any `b`, each of `setIntensity d level`, `setScanLimit d limit`
and `shutdown d b` succeeds, appends to the bus trace exactly one transaction
(opcode 10 with data `level`, opcode 11 with data `limit`, opcode 12 with data
0 or 1, in the slot of device `d`) and leaves every shadow byte unchanged. -/
theorem config_one_transaction (s : LedControl) (d level limit : Nat) (b : Bool)
    (h8 : s.maxDevices ≤ 8) (hd : d < s.maxDevices) (hlevel : level ≤ 15) (hlimit : limit ≤ 7) :
    (∃ s', s.setIntensity d level = some s' ∧
      s'.bus = s.bus ++ transferEvents s d 10 level ∧ s'.status = s.status) ∧
    (∃ s', s.setScanLimit d limit = some s' ∧
      s'.bus = s.bus ++ transferEvents s d 11 limit ∧ s'.status = s.status) ∧
    (∃ s', s.shutdown d b = some s' ∧
      s'.bus = s.bus ++ transferEvents s d 12 (if b then 0 else 1) ∧ s'.status = s.status) ∧
    (∀ opcode data, slotByte d opcode data (2 * d + 1) = opcode
      ∧ slotByte d opcode data (2 * d) = data) := by
  refine ⟨⟨_, setIntensity_eq s d level h8 hd hlevel, rfl, rfl⟩,
    ⟨_, setScanLimit_eq s d limit h8 hd hlimit, rfl, rfl⟩,
    ⟨_, shutdown_eq s d b h8 hd, rfl, rfl⟩, ?_⟩
  intro opcode data
  simp [slotByte]

/-- Instance of `config_one_transaction`: device 0 of the two-device object
`demo`, intensity 15, scan limit 7, leaving shutdown. -/
theorem config_one_transaction_witness :
    demo.maxDevices ≤ 8 ∧ 0 < demo.maxDevices ∧ 15 ≤ 15 ∧ 7 ≤ 7 ∧
    (∃ s', demo.setIntensity 0 15 = some s' ∧
      s'.bus = demo.bus ++ transferEvents demo 0 10 15 ∧ s'.status = demo.status) ∧
    (∃ s', demo.setScanLimit 0 7 = some s' ∧
      s'.bus = demo.bus ++ transferEvents demo 0 11 7 ∧ s'.status = demo.status) ∧
    (∃ s', demo.shutdown 0 false = some s' ∧
      s'.bus = demo.bus ++ transferEvents demo 0 12 (if false = true then 0 else 1)
      ∧ s'.status = demo.status) ∧
    (∀ opcode data, slotByte 0 opcode data (2 * 0 + 1) = opcode
      ∧ slotByte 0 opcode data (2 * 0) = data) :=
  ⟨by decide, by decide, by decide, by decide,
    config_one_transaction demo 0 15 7 false (by decide) (by decide) (by decide) (by decide)⟩

/-- C13: on a chain of `N ≤ 8` devices and for `d < N`, whatever the shadow
holds, `clearDisplay d` succeeds, sets the eight shadow bytes `status[d*8]` to
`status[d*8+7]` to 0, leaves every other shadow byte unchanged and appends to
the bus trace exactly eight transactions, with opcodes 1, 2, ..., 8 in this
order and data 0, in the slot of device `d`. -/
theorem clearDisplay_spec (s : LedControl) (d : Nat)
    (h8 : s.maxDevices ≤ 8) (hd : d < s.maxDevices) :
    ∃ s', s.clearDisplay d = some s' ∧
      (∀ r, r ≤ 7 → s'.status (d * 8 + r) = 0) ∧
      (∀ i, i < d * 8 ∨ d * 8 + 8 ≤ i → s'.status i = s.status i) ∧
      s'.bus = s.bus
        ++ transferEvents s d 1 0 ++ transferEvents s d 2 0 ++ transferEvents s d 3 0
        ++ transferEvents s d 4 0 ++ transferEvents s d 5 0 ++ transferEvents s d 6 0
        ++ transferEvents s d 7 0 ++ transferEvents s d 8 0 ∧
      (∀ opcode, slotByte d opcode 0 (2 * d + 1) = opcode ∧ slotByte d opcode 0 (2 * d) = 0) := by
  refine ⟨_, clearDisplay_eq s d h8 hd, ?_, ?_, ?_, ?_⟩
  · intro r hr
    have h1 : d * 8 + 0 ≤ d * 8 + r ∧ d * 8 + r < d * 8 + 0 + 8 := by omega
    rw [rowWrites_status, if_pos h1]
  · intro i hi
    have h1 : ¬ (d * 8 + 0 ≤ i ∧ i < d * 8 + 0 + 8) := by omega
    rw [rowWrites_status, if_neg h1]
  · rw [rowWrites_bus]
    simp [List.range_succ, List.flatMap_append]
  · intro opcode
    simp [slotByte]

/-- Instance of `clearDisplay_spec`: device 1 of the two-device object `demo`,
whose row 1 holds 129 before the call. -/
theorem clearDisplay_spec_witness :
    demo.maxDevices ≤ 8 ∧ 1 < demo.maxDevices ∧
    ∃ s', demo.clearDisplay 1 = some s' ∧
      (∀ r, r ≤ 7 → s'.status (1 * 8 + r) = 0) ∧
      (∀ i, i < 1 * 8 ∨ 1 * 8 + 8 ≤ i → s'.status i = demo.status i) ∧
      s'.bus = demo.bus
        ++ transferEvents demo 1 1 0 ++ transferEvents demo 1 2 0 ++ transferEvents demo 1 3 0
        ++ transferEvents demo 1 4 0 ++ transferEvents demo 1 5 0 ++ transferEvents demo 1 6 0
        ++ transferEvents demo 1 7 0 ++ transferEvents demo 1 8 0 ∧
      (∀ opcode, slotByte 1 opcode 0 (2 * 1 + 1) = opcode ∧ slotByte 1 opcode 0 (2 * 1) = 0) :=
  ⟨by decide, by decide, clearDisplay_spec demo 1 (by decide) (by decide)⟩

/-- C14, as stated, fails: on the three-device object `demo3`,
`spiTransfer 1 O D` with opcode `O = 1` and data `D = 2` shifts out the bytes
`[0, 0, 1, 2, 0, 0]`, the opcode before the data, and not `[0, 0, D, O, 0, 0]`
`= [0, 0, 2, 1, 0, 0]`. -/
theorem spiTransfer_frame_counterexample :
    demo3.maxDevices = 3 ∧
    ∃ s', demo3.spiTransfer 1 1 2 = some s' ∧
      sentBytes s'.bus = [0, 0, 1, 2, 0, 0] ∧
      sentBytes s'.bus ≠ [0, 0, 2, 1, 0, 0] := by
  refine ⟨rfl, _, spiTransfer_eq demo3 1 1 2 (by decide) (by decide), ?_, ?_⟩ <;> decide

/-- C14, amended: on a chain of 3 devices, for every opcode `O` and data byte
`D`, `spiTransfer 1 O D` succeeds and shifts out, between select low and
select high, the six buffer bytes of indices 5, 4, 3, 2, 1, 0 in this order,
that is the slot of device 2 first and the slot of device 0 last, each slot
with its opcode byte before its data byte; in transmission order the byte
sequence is `[0, 0, O, D, 0, 0]`. -/
theorem spiTransfer_frame_three (s : LedControl) (O D : Nat) (h3 : s.maxDevices = 3) :
    ∃ s', s.spiTransfer 1 O D = some s' ∧
      s'.bus = s.bus
        ++ [BusEvent.digitalWrite s.SPI_CS Level.LOW]
        ++ [s'.spidata 5, s'.spidata 4, s'.spidata 3, s'.spidata 2, s'.spidata 1,
              s'.spidata 0].map
            (fun b => BusEvent.shiftOut s.SPI_MOSI s.SPI_CLK BitOrder.MSBFIRST b)
        ++ [BusEvent.digitalWrite s.SPI_CS Level.HIGH] ∧
      [s'.spidata 5, s'.spidata 4, s'.spidata 3, s'.spidata 2, s'.spidata 1, s'.spidata 0]
        = [0, 0, O, D, 0, 0] := by
  refine ⟨_, spiTransfer_eq s 1 O D (by omega) (by omega), ?_, ?_⟩
  · simp [transact_bus, transferEvents, frameEvents, h3, List.range_succ, frameBuffer]
  · simp [frameBuffer, slotByte, h3]

/-- Instance of `spiTransfer_frame_three`: the three-device object `demo3`,
opcode 1, data 2. -/
theorem spiTransfer_frame_three_witness :
    demo3.maxDevices = 3 ∧
    ∃ s', demo3.spiTransfer 1 1 2 = some s' ∧
      s'.bus = demo3.bus
        ++ [BusEvent.digitalWrite demo3.SPI_CS Level.LOW]
        ++ [s'.spidata 5, s'.spidata 4, s'.spidata 3, s'.spidata 2, s'.spidata 1,
              s'.spidata 0].map
            (fun b => BusEvent.shiftOut demo3.SPI_MOSI demo3.SPI_CLK BitOrder.MSBFIRST b)
        ++ [BusEvent.digitalWrite demo3.SPI_CS Level.HIGH] ∧
      [s'.spidata 5, s'.spidata 4, s'.spidata 3, s'.spidata 2, s'.spidata 1, s'.spidata 0]
        = [0, 0, 1, 2, 0, 0] :=
  ⟨rfl, spiTransfer_frame_three demo3 1 2 rfl⟩

theorem testBit_ledByte_set (old c : Nat) (hc : c ≤ 7) :
    (ledByte old c true).testBit (7 - c) = true := by
  have h : B10000000 >>> c < 256 := shiftRight_lt c
  have e : ledByte old c true = (old ||| B10000000 >>> c) % 2 ^ 8 := by
    simp only [ledByte, if_true]
    rw [Nat.mod_eq_of_lt h]
    rfl
  have hlt : 7 - c < 8 := by omega
  rw [e, Nat.testBit_mod_two_pow, Nat.testBit_lor, shiftRight_eq_pow c hc, Nat.testBit_two_pow]
  simp [hlt]

/-- C15: on a chain of `N ≤ 8` devices, for `d < N`, `r ≤ 7`, two distinct
columns `c1`, `c2` (both at most 7), any flag `flag` and any shadow state,
`setLed d r c1 true` followed by `setLed d r c2 flag` both succeed; afterwards
bit `7 - c1` of `status[d*8+r]` is set, and the two calls append to the bus
trace two transactions, the second of which carries that final shadow byte as
data, so the data byte of the second frame has bit `7 - c1` set as well. -/
theorem setLed_keeps_other_column (s : LedControl) (d r c1 c2 : Nat) (flag : Bool)
    (h8 : s.maxDevices ≤ 8) (hd : d < s.maxDevices) (hr : r ≤ 7)
    (hc1 : c1 ≤ 7) (hc2 : c2 ≤ 7) (hne : c1 ≠ c2) :
    ∃ s1 s2, s.setLed d r c1 true = some s1 ∧ s1.setLed d r c2 flag = some s2 ∧
      (s2.status (d * 8 + r)).testBit (7 - c1) = true ∧
      s2.bus = s.bus ++ transferEvents s d (r + 1) (s1.status (d * 8 + r))
        ++ transferEvents s d (r + 1) (s2.status (d * 8 + r)) ∧
      slotByte d (r + 1) (s2.status (d * 8 + r)) (2 * d) = s2.status (d * 8 + r) := by
  have hbit : (ledByte (ledByte (s.status (d * 8 + r)) c1 true) c2 flag).testBit (7 - c1)
      = true := by
    have hj : 7 - c1 ≠ 7 - c2 := by omega
    rw [testBit_ledByte _ _ _ (ledByte_lt _ _ _) hc2, if_neg hj, testBit_ledByte_set _ _ hc1]
  refine ⟨_, _, setLed_eq s d r c1 true h8 hd hr hc1,
    setLed_eq _ d r c2 flag (by simpa using h8) (by simpa using hd) hr hc2, ?_, ?_, ?_⟩
  · rw [rowWrite_status, Function.update_same, rowWrite_status, Function.update_same]
    exact hbit
  · simp only [rowWrite_bus, rowWrite_transferEvents, rowWrite_status, Function.update_same]
  · simp [slotByte]

/-- Instance of `setLed_keeps_other_column`: row 1 of device 1 of the
two-device object `demo`, column 3 switched on, then column 7 switched off. -/
theorem setLed_keeps_other_column_witness :
    demo.maxDevices ≤ 8 ∧ 1 < demo.maxDevices ∧ 1 ≤ 7 ∧ 3 ≤ 7 ∧ 7 ≤ 7 ∧ 3 ≠ 7 ∧
    ∃ s1 s2, demo.setLed 1 1 3 true = some s1 ∧ s1.setLed 1 1 7 false = some s2 ∧
      (s2.status (1 * 8 + 1)).testBit (7 - 3) = true ∧
      s2.bus = demo.bus ++ transferEvents demo 1 (1 + 1) (s1.status (1 * 8 + 1))
        ++ transferEvents demo 1 (1 + 1) (s2.status (1 * 8 + 1)) ∧
      slotByte 1 (1 + 1) (s2.status (1 * 8 + 1)) (2 * 1) = s2.status (1 * 8 + 1) :=
  ⟨by decide, by decide, by decide, by decide, by decide, by decide,
    setLed_keeps_other_column demo 1 1 3 7 false (by decide) (by decide) (by decide)
      (by decide) (by decide) (by decide)⟩

theorem ledByte_roundtrip (old c : Nat) (hb : old < 256) (hc : c ≤ 7)
    (hclear : old.testBit (7 - c) = false) :
    ledByte (ledByte old c true) c false = old := by
  apply Nat.eq_of_testBit_eq
  intro j
  rw [testBit_ledByte _ _ _ (ledByte_lt _ _ _) hc, testBit_ledByte _ _ _ hb hc]
  by_cases hj : j = 7 - c
  · rw [if_pos hj, hj, hclear]
  · rw [if_neg hj, if_neg hj]

theorem setLed_roundtrip_eq (s : LedControl) (d r c : Nat)
    (h8 : s.maxDevices ≤ 8) (hd : d < s.maxDevices) (hr : r ≤ 7) (hc : c ≤ 7)
    (hb : s.status (d * 8 + r) < 256)
    (hclear : (s.status (d * 8 + r)).testBit (7 - c) = false) :
    ∃ s1 s2, s.setLed d r c true = some s1 ∧ s1.setLed d r c false = some s2 ∧
      s1.status (d * 8 + r) = s.status (d * 8 + r) ||| 2 ^ (7 - c) ∧
      s2.status = s.status := by
  refine ⟨_, _, setLed_eq s d r c true h8 hd hr hc,
    setLed_eq _ d r c false (by simpa using h8) (by simpa using hd) hr hc, ?_, ?_⟩
  · rw [rowWrite_status, Function.update_same, ledByte_true _ _ hb, shiftRight_eq_pow c hc]
  · rw [rowWrite_status, rowWrite_status, Function.update_same, Function.update_idem,
      ledByte_roundtrip _ _ hb hc hclear, Function.update_eq_self]

/-- C16: on a chain of `N ≤ 8` devices, for `d < N`, `r ≤ 7`, `c ≤ 7` and a
shadow state in which `status[d*8+r]` is a byte with bit `7 - c` clear,
`setLed d r c true` followed by `setLed d r c false` both succeed, the first
sets that bit and the second restores the whole shadow to its value before the
two calls.  In particular, on a chain freshly constructed with 2 devices (over
any object `raw` and any pins), `setLed 0 0 0 true` makes `status[0]` equal to
`0x80` and the following `setLed 0 0 0 false` leaves `status[0] = 0`. -/
theorem setLed_set_clear (s : LedControl) (d r c : Nat)
    (h8 : s.maxDevices ≤ 8) (hd : d < s.maxDevices) (hr : r ≤ 7) (hc : c ≤ 7)
    (hb : s.status (d * 8 + r) < 256)
    (hclear : (s.status (d * 8 + r)).testBit (7 - c) = false) :
    (∃ s1 s2, s.setLed d r c true = some s1 ∧ s1.setLed d r c false = some s2 ∧
      s1.status (d * 8 + r) = s.status (d * 8 + r) ||| 2 ^ (7 - c) ∧
      s2.status = s.status) ∧
    (∀ (raw : LedControl) (dataPin clkPin csPin : Nat),
      ∃ s0 s1 s2, construct raw dataPin clkPin csPin 2 = some s0 ∧
        s0.setLed 0 0 0 true = some s1 ∧ s1.setLed 0 0 0 false = some s2 ∧
        s0.status 0 = 0 ∧ s1.status 0 = 0x80 ∧ s2.status 0 = 0) := by
  refine ⟨setLed_roundtrip_eq s d r c h8 hd hr hc hb hclear, ?_⟩
  intro raw dataPin clkPin csPin
  have hz : (deviceInits 2 0 (fieldsObject raw dataPin clkPin csPin 2)).status 0 = 0 := by
    apply deviceInits_status_zero 2 0 _ _ 0 (by omega)
    intro j hj
    simp [fieldsObject, hj]
  have hm : (deviceInits 2 0 (fieldsObject raw dataPin clkPin csPin 2)).maxDevices = 2 := by
    rw [deviceInits_maxDevices]
    rfl
  obtain ⟨s1, s2, e1, e2, h1, h2⟩ := setLed_roundtrip_eq
    (deviceInits 2 0 (fieldsObject raw dataPin clkPin csPin 2)) 0 0 0 (by omega) (by omega)
    (by omega) (by omega) (by simp only [Nat.zero_mul, Nat.zero_add]; omega)
    (by simp only [Nat.zero_mul, Nat.zero_add, hz]; rfl)
  refine ⟨_, s1, s2, construct_eq raw dataPin clkPin csPin 2 (by omega), e1, e2, hz, ?_, ?_⟩
  · simp only [Nat.zero_mul, Nat.zero_add, hz] at h1
    rw [h1]
    rfl
  · rw [h2, hz]

/-- Instance of `setLed_set_clear`: row 0 of device 1 of the two-device object
`demo`, whose shadow byte is 0, column 5. -/
theorem setLed_set_clear_witness :
    demo.maxDevices ≤ 8 ∧ 1 < demo.maxDevices ∧ 0 ≤ 7 ∧ 5 ≤ 7 ∧
    demo.status (1 * 8 + 0) < 256 ∧ (demo.status (1 * 8 + 0)).testBit (7 - 5) = false ∧
    (∃ s1 s2, demo.setLed 1 0 5 true = some s1 ∧ s1.setLed 1 0 5 false = some s2 ∧
      s1.status (1 * 8 + 0) = demo.status (1 * 8 + 0) ||| 2 ^ (7 - 5) ∧
      s2.status = demo.status) ∧
    (∀ (raw : LedControl) (dataPin clkPin csPin : Nat),
      ∃ s0 s1 s2, construct raw dataPin clkPin csPin 2 = some s0 ∧
        s0.setLed 0 0 0 true = some s1 ∧ s1.setLed 0 0 0 false = some s2 ∧
        s0.status 0 = 0 ∧ s1.status 0 = 0x80 ∧ s2.status 0 = 0) :=
  ⟨by decide, by decide, by decide, by decide, by decide, by decide,
    setLed_set_clear demo 1 0 5 (by decide) (by decide) (by decide) (by decide) (by decide)
      (by decide)⟩

theorem glyphByte_eq (v : Nat) (dp : Bool) (hv : v < 256) :
    glyphByte v dp = if dp then v ||| 0x80 else v := by
  have h : v ||| 128 < 256 := Nat.or_lt_two_pow (n := 8) hv (by decide)
  cases dp
  · simp [glyphByte]
  · simp only [glyphByte, B10000000, if_true]
    exact Nat.mod_eq_of_lt h

theorem charIndex_eq (k : Nat) (hk : k ≤ 255) : charIndex k = if k ≤ 127 then k else 32 := by
  have e : k % 256 = k := by omega
  simp only [charIndex, e]
  split_ifs <;> omega

/-- C17: let `T` be any glyph table whose 128 entries are bytes.  On a chain of
`N ≤ 8` devices, for `d < N`, digit `g ≤ 7`, character code `k ≤ 255` and flag
`dp`, `setChar d g k dp` succeeds, stores into `status[d*8+g]` the byte `T[k]`
if `k ≤ 127` and `T[32]` if `k ≥ 128`, OR-ed with `0x80` when `dp` is true,
leaves every other shadow byte unchanged and appends to the bus trace exactly
one transaction carrying opcode `g + 1` and that byte in the slot of device
`d`; `setDigit d g v dp` does the same with `T[v]` for `v ≤ 15` and returns the
object unchanged for `v > 15`. -/
theorem glyph_spec (T : Nat → Nat) (s : LedControl) (d g k : Nat) (dp : Bool)
    (h8 : s.maxDevices ≤ 8) (hd : d < s.maxDevices) (hg : g ≤ 7) (hk : k ≤ 255)
    (hT : ∀ i, i < 128 → T i < 256) :
    (∃ s', setChar T s d g k dp = some s' ∧
      s'.status (d * 8 + g)
        = (if dp then (if k ≤ 127 then T k else T 32) ||| 0x80
           else (if k ≤ 127 then T k else T 32)) ∧
      (∀ i, i ≠ d * 8 + g → s'.status i = s.status i) ∧
      s'.bus = s.bus ++ transferEvents s d (g + 1) (s'.status (d * 8 + g))) ∧
    (∀ v, v ≤ 15 → ∃ s', setDigit T s d g v dp = some s' ∧
      s'.status (d * 8 + g) = (if dp then T v ||| 0x80 else T v) ∧
      (∀ i, i ≠ d * 8 + g → s'.status i = s.status i) ∧
      s'.bus = s.bus ++ transferEvents s d (g + 1) (s'.status (d * 8 + g))) ∧
    (∀ v, 15 < v → setDigit T s d g v dp = some s) := by
  refine ⟨⟨_, setChar_eq T s d g k dp h8 hd hg, ?_, ?_, ?_⟩, ?_, ?_⟩
  · rw [rowWrite_status, Function.update_same, charIndex_eq k hk]
    by_cases hk7 : k ≤ 127
    · simp only [hk7, if_true]
      exact glyphByte_eq _ _ (hT k (by omega))
    · simp only [hk7, if_false]
      exact glyphByte_eq _ _ (hT 32 (by omega))
  · intro i hi
    rw [rowWrite_status, Function.update_noteq hi]
  · rw [rowWrite_bus, rowWrite_status, Function.update_same]
  · intro v hv
    refine ⟨_, setDigit_eq T s d g v dp h8 hd hg hv, ?_, ?_, ?_⟩
    · rw [rowWrite_status, Function.update_same]
      exact glyphByte_eq _ _ (hT v (by omega))
    · intro i hi
      rw [rowWrite_status, Function.update_noteq hi]
    · rw [rowWrite_bus, rowWrite_status, Function.update_same]
  · intro v hv
    have h1 : ¬ (d ≥ s.maxDevices) := by omega
    have h2 : g > 7 ∨ v > 15 := Or.inr hv
    simp [setDigit, h1, h2]

/-- Instance of `glyph_spec`: the table `T[i] = i`, digit 1 of device 0 of the
two-device object `demo`; character code 200 (beyond the table) with the
decimal point, digit value 11 with the decimal point, and the rejected digit
value 16. -/
theorem glyph_spec_witness :
    demo.maxDevices ≤ 8 ∧ 0 < demo.maxDevices ∧ 1 ≤ 7 ∧ 200 ≤ 255 ∧
    (∀ i, i < 128 → (fun j : Nat => j) i < 256) ∧
    (∃ s', setChar (fun j => j) demo 0 1 200 true = some s' ∧
      s'.status (0 * 8 + 1)
        = (if true = true then
            (if 200 ≤ 127 then (fun j : Nat => j) 200 else (fun j : Nat => j) 32) ||| 0x80
           else (if 200 ≤ 127 then (fun j : Nat => j) 200 else (fun j : Nat => j) 32)) ∧
      (∀ i, i ≠ 0 * 8 + 1 → s'.status i = demo.status i) ∧
      s'.bus = demo.bus ++ transferEvents demo 0 (1 + 1) (s'.status (0 * 8 + 1))) ∧
    (∃ s', setDigit (fun j => j) demo 0 1 11 true = some s' ∧
      s'.status (0 * 8 + 1)
        = (if true = true then (fun j : Nat => j) 11 ||| 0x80 else (fun j : Nat => j) 11) ∧
      (∀ i, i ≠ 0 * 8 + 1 → s'.status i = demo.status i) ∧
      s'.bus = demo.bus ++ transferEvents demo 0 (1 + 1) (s'.status (0 * 8 + 1))) ∧
    setDigit (fun j => j) demo 0 1 16 true = some demo :=
  ⟨by decide, by decide, by decide, by decide, fun i hi => by simp only; omega,
    (glyph_spec (fun j => j) demo 0 1 200 true (by decide) (by decide) (by decide)
      (by decide) (fun i hi => by simp only; omega)).1,
    (glyph_spec (fun j => j) demo 0 1 200 true (by decide) (by decide) (by decide)
      (by decide) (fun i hi => by simp only; omega)).2.1 11 (by decide),
    (glyph_spec (fun j => j) demo 0 1 200 true (by decide) (by decide) (by decide)
      (by decide) (fun i hi => by simp only; omega)).2.2 16 (by decide)⟩

theorem isolated_refl (d : Nat) (s : LedControl) : Isolated d s s :=
  ⟨rfl, rfl, rfl, rfl, fun _ _ _ _ => rfl, ⟨[], by simp⟩, fun _ _ _ _ => rfl⟩

theorem isolated_trans (d : Nat) (s t u : LedControl) (h1 : Isolated d s t)
    (h2 : Isolated d t u) : Isolated d s u := by
  obtain ⟨a1, a2, a3, a4, a5, ⟨fs, a6⟩, a7⟩ := h1
  obtain ⟨b1, b2, b3, b4, b5, ⟨gs, b6⟩, b7⟩ := h2
  refine ⟨b1.trans a1, b2.trans a2, b3.trans a3, b4.trans a4, ?_, ⟨fs ++ gs, ?_⟩, ?_⟩
  · intro e r he hr
    rw [b5 e r he hr, a5 e r he hr]
  · rw [b6, a6, List.flatMap_append, List.append_assoc]
    congr 2
    apply List.flatMap_congr
    intro p _
    exact transferEvents_congr s t d p.1 p.2 a2 a3 a4 a1
  · intro regs0 e a he
    rw [← a1, b7 regs0 e a he, a1, a7 regs0 e a he]

theorem isolated_transact (s : LedControl) (d opcode data : Nat) (hd : d < s.maxDevices) :
    Isolated d s (s.transact d opcode data) := by
  refine ⟨rfl, rfl, rfl, rfl, fun _ _ _ _ => rfl, ⟨[(opcode, data)], by simp⟩, ?_⟩
  intro regs0 e a he
  have hne : ¬ (e = d ∧ opcode ≠ 0 ∧ a = opcode) := fun h => he h.1
  rw [regs_transact s.maxDevices regs0 s d opcode data rfl hd, if_neg hne]

theorem isolated_rowWrite (s : LedControl) (d row v : Nat) (hd : d < s.maxDevices)
    (hrow : row ≤ 7) : Isolated d s (s.rowWrite d row v) := by
  refine ⟨rfl, rfl, rfl, rfl, ?_, ⟨[(row + 1, v)], by simp⟩, ?_⟩
  · intro e r he hr
    have hne : e * 8 + r ≠ d * 8 + row := by omega
    rw [rowWrite_status, Function.update_noteq hne]
  · intro regs0 e a he
    have hne : ¬ (e = d ∧ a = row + 1) := fun h => he h.1
    rw [regs_rowWrite s.maxDevices regs0 s d row v rfl hd, if_neg hne]

theorem isolated_rowWrites (g : Nat → Nat → Nat) (d k : Nat) :
    ∀ (i : Nat) (s : LedControl), d < s.maxDevices → i + k ≤ 8 →
      Isolated d s (rowWrites g d k i s) := by
  induction k with
  | zero => intro i s _ _; exact isolated_refl d s
  | succ k ih =>
    intro i s hd hik
    rw [rowWrites]
    exact isolated_trans d s _ _ (isolated_rowWrite s d i _ hd (by omega))
      (ih (i + 1) _ (by simpa using hd) (by omega))

theorem run_isolated (charTable : Nat → Nat) (s : LedControl) (op : Op) (d : Nat)
    (h8 : s.maxDevices ≤ 8) (ht : op.target = some d) :
    ∃ s', op.run charTable s = some s' ∧ Isolated d s s' := by
  cases op with
  | getDeviceCount => simp [Op.target] at ht
  | shutdown addr b =>
    obtain rfl : addr = d := by simpa [Op.target] using ht
    by_cases ha : addr < s.maxDevices
    · exact ⟨_, shutdown_eq s addr b h8 ha, isolated_transact s addr _ _ ha⟩
    · refine ⟨s, ?_, isolated_refl addr s⟩
      have ha2 : addr ≥ s.maxDevices := by omega
      simp [Op.run, shutdown, ha2]
  | setScanLimit addr limit =>
    obtain rfl : addr = d := by simpa [Op.target] using ht
    by_cases ha : addr < s.maxDevices ∧ limit ≤ 7
    · exact ⟨_, setScanLimit_eq s addr limit h8 ha.1 ha.2, isolated_transact s addr _ _ ha.1⟩
    · refine ⟨s, ?_, isolated_refl addr s⟩
      by_cases ha2 : addr ≥ s.maxDevices
      · simp [Op.run, setScanLimit, ha2]
      · have hl : ¬ (limit < 8) := by omega
        simp [Op.run, setScanLimit, hl]
  | setIntensity addr intensity =>
    obtain rfl : addr = d := by simpa [Op.target] using ht
    by_cases ha : addr < s.maxDevices ∧ intensity ≤ 15
    · exact ⟨_, setIntensity_eq s addr intensity h8 ha.1 ha.2,
        isolated_transact s addr _ _ ha.1⟩
    · refine ⟨s, ?_, isolated_refl addr s⟩
      by_cases ha2 : addr ≥ s.maxDevices
      · simp [Op.run, setIntensity, ha2]
      · have hl : ¬ (intensity < 16) := by omega
        simp [Op.run, setIntensity, hl]
  | clearDisplay addr =>
    obtain rfl : addr = d := by simpa [Op.target] using ht
    by_cases ha : addr < s.maxDevices
    · exact ⟨_, clearDisplay_eq s addr h8 ha, isolated_rowWrites _ addr 8 0 s ha (by omega)⟩
    · refine ⟨s, ?_, isolated_refl addr s⟩
      have ha2 : addr ≥ s.maxDevices := by omega
      simp [Op.run, clearDisplay, ha2]
  | setLed addr row column state =>
    obtain rfl : addr = d := by simpa [Op.target] using ht
    by_cases ha : addr < s.maxDevices ∧ row ≤ 7 ∧ column ≤ 7
    · exact ⟨_, setLed_eq s addr row column state h8 ha.1 ha.2.1 ha.2.2,
        isolated_rowWrite s addr row _ ha.1 ha.2.1⟩
    · refine ⟨s, ?_, isolated_refl addr s⟩
      by_cases ha2 : addr ≥ s.maxDevices
      · simp [Op.run, setLed, ha2]
      · have hl : row > 7 ∨ column > 7 := by omega
        simp [Op.run, setLed, hl]
  | setRow addr row value =>
    obtain rfl : addr = d := by simpa [Op.target] using ht
    by_cases ha : addr < s.maxDevices ∧ row ≤ 7
    · exact ⟨_, setRow_eq s addr row value h8 ha.1 ha.2, isolated_rowWrite s addr row _ ha.1 ha.2⟩
    · refine ⟨s, ?_, isolated_refl addr s⟩
      by_cases ha2 : addr ≥ s.maxDevices
      · simp [Op.run, setRow, ha2]
      · have hl : row > 7 := by omega
        simp [Op.run, setRow, hl]
  | setColumn addr col value =>
    obtain rfl : addr = d := by simpa [Op.target] using ht
    by_cases ha : addr < s.maxDevices ∧ col ≤ 7
    · exact ⟨_, setColumn_eq s addr col value h8 ha.1 ha.2,
        isolated_rowWrites _ addr 8 0 s ha.1 (by omega)⟩
    · refine ⟨s, ?_, isolated_refl addr s⟩
      by_cases ha2 : addr ≥ s.maxDevices
      · simp [Op.run, setColumn, ha2]
      · have hl : col > 7 := by omega
        simp [Op.run, setColumn, hl]
  | setDigit addr digit value dp =>
    obtain rfl : addr = d := by simpa [Op.target] using ht
    by_cases ha : addr < s.maxDevices ∧ digit ≤ 7 ∧ value ≤ 15
    · exact ⟨_, setDigit_eq charTable s addr digit value dp h8 ha.1 ha.2.1 ha.2.2,
        isolated_rowWrite s addr digit _ ha.1 ha.2.1⟩
    · refine ⟨s, ?_, isolated_refl addr s⟩
      by_cases ha2 : addr ≥ s.maxDevices
      · simp [Op.run, setDigit, ha2]
      · have hl : digit > 7 ∨ value > 15 := by omega
        simp [Op.run, setDigit, hl]
  | setChar addr digit value dp =>
    obtain rfl : addr = d := by simpa [Op.target] using ht
    by_cases ha : addr < s.maxDevices ∧ digit ≤ 7
    · exact ⟨_, setChar_eq charTable s addr digit value dp h8 ha.1 ha.2,
        isolated_rowWrite s addr digit _ ha.1 ha.2⟩
    · refine ⟨s, ?_, isolated_refl addr s⟩
      by_cases ha2 : addr ≥ s.maxDevices
      · simp [Op.run, setChar, ha2]
      · have hl : digit > 7 := by omega
        simp [Op.run, setChar, hl]

/-- C19: on a chain of `N ≤ 8` devices, every public call addressed to a
device `d` (`shutdown`, `setScanLimit`, `setIntensity`, `clearDisplay`,
`setLed`, `setRow`, `setColumn`, and also `setDigit` and `setChar`, with any
other arguments, valid or not) succeeds; the shadow bytes of every device
`e ≠ d` are unchanged, the bus trace grows by a sequence of transactions each
of which carries its `(opcode, data)` pair in the slot of device `d` and
opcode 0 and data 0 in the slot of every device `e ≠ d`, and replaying the
trace leaves every register of every device `e ≠ d` as it was. -/
theorem device_isolation (charTable : Nat → Nat) (s : LedControl) (op : Op) (d : Nat)
    (h8 : s.maxDevices ≤ 8) (ht : op.target = some d) :
    ∃ (s' : LedControl) (fs : List (Nat × Nat)), op.run charTable s = some s' ∧
      (∀ e r, e ≠ d → r ≤ 7 → s'.status (e * 8 + r) = s.status (e * 8 + r)) ∧
      s'.bus = s.bus ++ fs.flatMap (fun p => transferEvents s d p.1 p.2) ∧
      (∀ e opcode data, e ≠ d →
        slotByte d opcode data (2 * e + 1) = 0 ∧ slotByte d opcode data (2 * e) = 0) ∧
      (∀ (regs0 : Nat → Nat → Nat) (e a : Nat), e ≠ d →
        (replay s.maxDevices regs0 s'.bus).regs e a
          = (replay s.maxDevices regs0 s.bus).regs e a) := by
  obtain ⟨s', e1, _, _, _, _, h5, ⟨fs, h6⟩, h7⟩ := run_isolated charTable s op d h8 ht
  refine ⟨s', fs, e1, h5, h6, ?_, h7⟩
  intro e opcode data he
  have h1 : ¬ (2 * e + 1 = 2 * d) := by omega
  have h2 : ¬ (2 * e + 1 = 2 * d + 1) := by omega
  have h3 : ¬ (2 * e = 2 * d) := by omega
  have h4 : ¬ (2 * e = 2 * d + 1) := by omega
  simp [slotByte, h1, h2, h3, h4]

/-- Instance of `device_isolation`: `setColumn 1 2 0xFF` on the two-device
object `demo`. -/
theorem device_isolation_witness :
    demo.maxDevices ≤ 8 ∧ (Op.setColumn 1 2 0xFF).target = some 1 ∧
    ∃ (s' : LedControl) (fs : List (Nat × Nat)), (Op.setColumn 1 2 0xFF).run (fun j => j) demo = some s' ∧
      (∀ e r, e ≠ 1 → r ≤ 7 → s'.status (e * 8 + r) = demo.status (e * 8 + r)) ∧
      s'.bus = demo.bus ++ fs.flatMap (fun p => transferEvents demo 1 p.1 p.2) ∧
      (∀ e opcode data, e ≠ 1 →
        slotByte 1 opcode data (2 * e + 1) = 0 ∧ slotByte 1 opcode data (2 * e) = 0) ∧
      (∀ (regs0 : Nat → Nat → Nat) (e a : Nat), e ≠ 1 →
        (replay demo.maxDevices regs0 s'.bus).regs e a
          = (replay demo.maxDevices regs0 demo.bus).regs e a) :=
  ⟨by decide, rfl, device_isolation (fun j => j) demo (Op.setColumn 1 2 0xFF) 1 (by decide) rfl⟩

theorem tracks_some (n : Nat) (t : Traced) : Tracks n (some t.obj) t (some t) := by
  intro o ho
  obtain rfl : t.obj = o := Option.some.inj ho
  exact ⟨[], by simp, by simp⟩

theorem tracks_note (n : Nat) (orig : Option LedControl) (t : Traced) (a : Access)
    (res : Option Traced) (ha : a.Safe n) (h : Tracks n orig (t.note a) res) :
    Tracks n orig t res := by
  intro o ho
  obtain ⟨l, e, hl⟩ := h o ho
  refine ⟨a :: l, ?_, ?_⟩
  · rw [e]
    simp [Traced.note]
  · intro b hb
    rcases List.mem_cons.mp hb with rfl | hb
    · exact ha
    · exact hl b hb

theorem tracks_bind (n : Nat) (a : Option LedControl) (f : LedControl → Option LedControl)
    (t : Traced) (a' : Option Traced) (f' : Traced → Option Traced)
    (ha : Tracks n a t a')
    (hf : ∀ t' : Traced, a = some t'.obj → Tracks n (f t'.obj) t' (f' t')) :
    Tracks n (a.bind f) t (a'.bind f') := by
  intro o ho
  obtain ⟨o1, h1, h2⟩ := Option.bind_eq_some.mp ho
  obtain ⟨l1, e1, s1⟩ := ha o1 h1
  obtain ⟨l2, e2, s2⟩ := hf { obj := o1, log := t.log ++ l1 } h1 o h2
  refine ⟨l1 ++ l2, ?_, ?_⟩
  · rw [e1, Option.some_bind, e2, List.append_assoc]
  · intro b hb
    rcases List.mem_append.mp hb with hb | hb
    · exact s1 b hb
    · exact s2 b hb

theorem tracks_read_bind (n : Nat) (r : Option Nat) (f : Nat → Option LedControl)
    (t : Traced) (f' : Nat → Option Traced)
    (hf : ∀ v, r = some v → Tracks n (f v) t (f' v)) :
    Tracks n (r.bind f) t (r.bind f') := by
  intro o ho
  obtain ⟨v, h1, h2⟩ := Option.bind_eq_some.mp ho
  obtain ⟨l, e, hl⟩ := hf v h1 o h2
  exact ⟨l, by rw [h1, Option.some_bind, e], hl⟩

theorem tracks_writeStatus (n : Nat) (t : Traced) (i v : Nat) :
    Tracks n (t.obj.writeStatus i v) t (t.writeStatus i v) := by
  intro o ho
  refine ⟨[Access.status i], by simp [Traced.writeStatus, ho], ?_⟩
  intro a ha
  obtain rfl : a = Access.status i := by simpa using ha
  by_cases hi : i < statusSize
  · exact hi
  · simp [writeStatus, hi] at ho

theorem tracks_writeSpidata (n : Nat) (t : Traced) (i v : Nat) (hi : i < 2 * n) (hn : n ≤ 8) :
    Tracks n (t.obj.writeSpidata i v) t (t.writeSpidata i v) := by
  intro o ho
  refine ⟨[Access.spidata i], by simp [Traced.writeSpidata, ho], ?_⟩
  intro a ha
  obtain rfl : a = Access.spidata i := by simpa using ha
  exact ⟨hi, by omega⟩

theorem tracks_forUp (n : Nat) (body : Nat → LedControl → Option LedControl)
    (body' : Nat → Traced → Option Traced) (I : LedControl → Prop) (k : Nat) :
    ∀ (i : Nat) (t : Traced), I t.obj →
      (∀ j o o', i ≤ j → j < i + k → I o → body j o = some o' → I o') →
      (∀ j (u : Traced), i ≤ j → j < i + k → I u.obj → Tracks n (body j u.obj) u (body' j u)) →
      Tracks n (forUp body k i t.obj) t (forUp body' k i t) := by
  induction k with
  | zero =>
    intro i t _ _ _
    exact tracks_some n t
  | succ k ih =>
    intro i t ht hI hb
    rw [forUp, forUp]
    apply tracks_bind
    · exact hb i t (by omega) (by omega) ht
    · intro t' ht'
      exact ih (i + 1) t' (hI i _ _ (by omega) (by omega) ht ht')
        (fun j o o' h1 h2 ho he => hI j o o' (by omega) (by omega) ho he)
        (fun j u h1 h2 hu => hb j u (by omega) (by omega) hu)

theorem tracks_forDown (n : Nat) (body : Nat → LedControl → Option LedControl)
    (body' : Nat → Traced → Option Traced) (k : Nat) :
    ∀ (t : Traced),
      (∀ j (u : Traced), 1 ≤ j → j ≤ k → Tracks n (body j u.obj) u (body' j u)) →
      Tracks n (forDown body k t.obj) t (forDown body' k t) := by
  induction k with
  | zero =>
    intro t _
    exact tracks_some n t
  | succ k ih =>
    intro t hb
    rw [forDown, forDown]
    apply tracks_bind
    · exact hb (k + 1) t (by omega) (by omega)
    · intro t' _
      exact ih t' (fun j u h1 h2 => hb j u h1 (by omega))

theorem tracks_shiftOutByte (n : Nat) (i : Nat) (t : Traced) (h1 : 1 ≤ i) (h2 : i ≤ 2 * n)
    (hn : n ≤ 8) : Tracks n (shiftOutByte i t.obj) t (Traced.shiftOutByte i t) := by
  simp only [shiftOutByte, Traced.shiftOutByte, Option.bind_eq_bind, Option.pure_def]
  apply tracks_read_bind
  intro v _
  apply tracks_note n _ t (Access.spidata (i - 1)) _ ⟨by omega, by omega⟩
  exact tracks_some n ((t.note (Access.spidata (i - 1))).emit _)

theorem tracks_of_emit (n : Nat) (orig : Option LedControl) (t : Traced) (e : BusEvent)
    (res : Option Traced) (h : Tracks n orig (t.emit e) res) : Tracks n orig t res := h

@[simp] theorem Traced.note_obj (t : Traced) (a : Access) : (t.note a).obj = t.obj := rfl

@[simp] theorem Traced.emit_obj (t : Traced) (e : BusEvent) : (t.emit e).obj = t.obj.emit e := rfl

theorem tracks_spiTransfer (n : Nat) (t : Traced) (addr opcode data : Nat)
    (hn : t.obj.maxDevices = n) (h8 : n ≤ 8) (hk : addr < n) :
    Tracks n (t.obj.spiTransfer addr opcode data) t (t.spiTransfer addr opcode data) := by
  have hm : t.obj.maxDevices * 2 % 256 = 2 * n := by omega
  have ha : addr * 2 % 256 = 2 * addr := by omega
  simp only [spiTransfer, Traced.spiTransfer, Option.bind_eq_bind, Option.pure_def,
    Traced.note_obj, hm, ha]
  apply tracks_note n _ t (Access.arith8 (addr * 2)) _ (by simp only [Access.Safe]; omega)
  apply tracks_note n _ _ (Access.arith8 (t.obj.maxDevices * 2)) _
    (by simp only [Access.Safe]; omega)
  refine tracks_bind n _ _ _ _ _ ?_ ?_
  · refine tracks_forUp n (fun i s => s.writeSpidata i 0) (fun i u => u.writeSpidata i 0)
      (fun _ => True) (2 * n - 0) 0
      ((t.note (Access.arith8 (addr * 2))).note (Access.arith8 (t.obj.maxDevices * 2)))
      trivial (fun _ _ _ _ _ _ _ => trivial) ?_
    intro j u _ hj _
    exact tracks_writeSpidata n u j 0 (by omega) h8
  · intro t1 _
    apply tracks_note n _ t1 (Access.arith8 (2 * addr + 1)) _
      (by simp only [Access.Safe]; omega)
    refine tracks_bind n _ _ _ _ _
      (tracks_writeSpidata n (t1.note (Access.arith8 (2 * addr + 1))) (2 * addr + 1) opcode
        (by omega) h8) ?_
    intro t2 _
    refine tracks_bind n _ _ _ _ _ (tracks_writeSpidata n t2 (2 * addr) data (by omega) h8) ?_
    intro t3 _
    apply tracks_of_emit n _ t3 (BusEvent.digitalWrite t3.obj.SPI_CS Level.LOW)
    refine tracks_bind n _ _ _ _ _ ?_ ?_
    · refine tracks_forDown n shiftOutByte Traced.shiftOutByte (2 * n)
        (t3.emit (BusEvent.digitalWrite t3.obj.SPI_CS Level.LOW)) ?_
      intro j u h1 h2
      exact tracks_shiftOutByte n j u h1 h2 h8
    · intro t4 _
      exact tracks_of_emit n _ t4 _ _ (tracks_some n (t4.emit _))

theorem writeStatus_maxDevices (s o : LedControl) (i v : Nat)
    (h : s.writeStatus i v = some o) : o.maxDevices = s.maxDevices := by
  by_cases hi : i < statusSize
  · simp only [writeStatus, hi, if_true, Option.some.injEq] at h
    rw [← h]
  · simp [writeStatus, hi] at h

theorem readStatus_lt (s : LedControl) (i v : Nat) (h : s.readStatus i = some v) : i < 64 := by
  by_cases hi : i < statusSize
  · exact hi
  · simp [readStatus, hi] at h

theorem spiTransfer_maxDevices (s o : LedControl) (addr opcode data : Nat)
    (h8 : s.maxDevices ≤ 8) (hk : addr < s.maxDevices)
    (h : s.spiTransfer addr opcode data = some o) : o.maxDevices = s.maxDevices := by
  rw [spiTransfer_eq s addr opcode data h8 hk] at h
  rw [← Option.some.inj h]
  rfl

theorem tracks_shutdown (n : Nat) (t : Traced) (addr : Nat) (b : Bool)
    (hn : t.obj.maxDevices = n) (h8 : n ≤ 8) :
    Tracks n (t.obj.shutdown addr b) t (t.shutdown addr b) := by
  by_cases h1 : addr ≥ t.obj.maxDevices
  · simp only [shutdown, Traced.shutdown, h1, if_true]
    exact tracks_some n t
  · simp only [shutdown, Traced.shutdown, h1, if_false]
    cases b
    · exact tracks_spiTransfer n t addr _ _ hn h8 (by omega)
    · exact tracks_spiTransfer n t addr _ _ hn h8 (by omega)

theorem tracks_setScanLimit (n : Nat) (t : Traced) (addr limit : Nat)
    (hn : t.obj.maxDevices = n) (h8 : n ≤ 8) :
    Tracks n (t.obj.setScanLimit addr limit) t (t.setScanLimit addr limit) := by
  by_cases h1 : addr ≥ t.obj.maxDevices
  · simp only [setScanLimit, Traced.setScanLimit, h1, if_true]
    exact tracks_some n t
  · by_cases h2 : limit ≥ 0 ∧ limit < 8
    · simp only [setScanLimit, Traced.setScanLimit, h1, h2, if_false, and_self, if_true]
      exact tracks_spiTransfer n t addr _ _ hn h8 (by omega)
    · simp only [setScanLimit, Traced.setScanLimit, h1, h2, if_false]
      exact tracks_some n t

theorem tracks_setIntensity (n : Nat) (t : Traced) (addr intensity : Nat)
    (hn : t.obj.maxDevices = n) (h8 : n ≤ 8) :
    Tracks n (t.obj.setIntensity addr intensity) t (t.setIntensity addr intensity) := by
  by_cases h1 : addr ≥ t.obj.maxDevices
  · simp only [setIntensity, Traced.setIntensity, h1, if_true]
    exact tracks_some n t
  · by_cases h2 : intensity ≥ 0 ∧ intensity < 16
    · simp only [setIntensity, Traced.setIntensity, h1, h2, if_false, and_self, if_true]
      exact tracks_spiTransfer n t addr _ _ hn h8 (by omega)
    · simp only [setIntensity, Traced.setIntensity, h1, h2, if_false]
      exact tracks_some n t

theorem tracks_setRow (n : Nat) (t : Traced) (addr row value : Nat)
    (hn : t.obj.maxDevices = n) (h8 : n ≤ 8) :
    Tracks n (t.obj.setRow addr row value) t (t.setRow addr row value) := by
  by_cases h1 : addr ≥ t.obj.maxDevices
  · simp only [setRow, Traced.setRow, h1, if_true]
    exact tracks_some n t
  · by_cases h2 : row > 7
    · simp only [setRow, Traced.setRow, h1, h2, if_false, if_true]
      exact tracks_some n t
    · have ha : addr * 8 % 256 = addr * 8 := by omega
      simp only [setRow, Traced.setRow, h1, h2, if_false, Option.bind_eq_bind,
        Traced.note_obj, ha]
      apply tracks_note n _ t (Access.arith8 (addr * 8)) _ (by simp only [Access.Safe]; omega)
      apply tracks_note n _ _ (Access.arith8 (addr * 8 + row)) _
        (by simp only [Access.Safe]; omega)
      refine tracks_bind n _ _ _ _ _
        (tracks_writeStatus n
          ((t.note (Access.arith8 (addr * 8))).note (Access.arith8 (addr * 8 + row)))
          (addr * 8 + row) value) ?_
      intro t1 e1
      have hn1 : t1.obj.maxDevices = n := (writeStatus_maxDevices _ _ _ _ e1).trans hn
      apply tracks_note n _ t1 (Access.arith8 (addr * 8 + row)) _
        (by simp only [Access.Safe]; omega)
      apply tracks_read_bind
      intro v hv
      apply tracks_note n _ _ (Access.status (addr * 8 + row)) _ (readStatus_lt _ _ _ hv)
      exact tracks_spiTransfer n
        ((t1.note (Access.arith8 (addr * 8 + row))).note (Access.status (addr * 8 + row)))
        addr _ v hn1 h8 (by omega)

theorem tracks_setLed (n : Nat) (t : Traced) (addr row column : Nat) (state : Bool)
    (hn : t.obj.maxDevices = n) (h8 : n ≤ 8) :
    Tracks n (t.obj.setLed addr row column state) t (t.setLed addr row column state) := by
  by_cases h1 : addr ≥ t.obj.maxDevices
  · simp only [setLed, Traced.setLed, h1, if_true]
    exact tracks_some n t
  · by_cases h2 : row > 7 ∨ column > 7
    · simp only [setLed, Traced.setLed, h1, h2, if_false, if_true]
      exact tracks_some n t
    · have ha : addr * 8 % 256 = addr * 8 := by omega
      have hcont : ∀ t1 : Traced, t1.obj.maxDevices = n →
          Tracks n
            ((t1.obj.readStatus (addr * 8 + row)).bind fun v =>
              t1.obj.spiTransfer addr ((row + 1) % 256) v)
            t1
            ((t1.obj.readStatus (addr * 8 + row)).bind fun v =>
              ((t1.note (Access.arith8 (addr * 8 + row))).note
                (Access.status (addr * 8 + row))).spiTransfer addr ((row + 1) % 256) v) := by
        intro t1 hn1
        apply tracks_read_bind
        intro v hv
        apply tracks_note n _ t1 (Access.arith8 (addr * 8 + row)) _
          (by simp only [Access.Safe]; omega)
        apply tracks_note n _ _ (Access.status (addr * 8 + row)) _ (readStatus_lt _ _ _ hv)
        exact tracks_spiTransfer n
          ((t1.note (Access.arith8 (addr * 8 + row))).note (Access.status (addr * 8 + row)))
          addr _ v hn1 h8 (by omega)
      cases state
      · simp only [setLed, Traced.setLed, h1, h2, if_false, Option.bind_eq_bind,
          Traced.note_obj, ha, Bool.false_eq_true]
        apply tracks_note n _ t (Access.arith8 (addr * 8)) _ (by simp only [Access.Safe]; omega)
        apply tracks_read_bind
        intro old hold
        apply tracks_note n _ _ (Access.arith8 (addr * 8 + row)) _
          (by simp only [Access.Safe]; omega)
        apply tracks_note n _ _ (Access.status (addr * 8 + row)) _ (readStatus_lt _ _ _ hold)
        apply tracks_note n _ _ (Access.arith8 (addr * 8 + row)) _
          (by simp only [Access.Safe]; omega)
        refine tracks_bind n _ _ _ _ _
          (tracks_writeStatus n
            ((((t.note (Access.arith8 (addr * 8))).note (Access.arith8 (addr * 8 + row))).note
              (Access.status (addr * 8 + row))).note (Access.arith8 (addr * 8 + row)))
            (addr * 8 + row) _) ?_
        intro t1 e1
        exact hcont t1 ((writeStatus_maxDevices _ _ _ _ e1).trans hn)
      · simp only [setLed, Traced.setLed, h1, h2, if_false, Option.bind_eq_bind,
          Traced.note_obj, ha, if_true]
        apply tracks_note n _ t (Access.arith8 (addr * 8)) _ (by simp only [Access.Safe]; omega)
        apply tracks_read_bind
        intro old hold
        apply tracks_note n _ _ (Access.arith8 (addr * 8 + row)) _
          (by simp only [Access.Safe]; omega)
        apply tracks_note n _ _ (Access.status (addr * 8 + row)) _ (readStatus_lt _ _ _ hold)
        apply tracks_note n _ _ (Access.arith8 (addr * 8 + row)) _
          (by simp only [Access.Safe]; omega)
        refine tracks_bind n _ _ _ _ _
          (tracks_writeStatus n
            ((((t.note (Access.arith8 (addr * 8))).note (Access.arith8 (addr * 8 + row))).note
              (Access.status (addr * 8 + row))).note (Access.arith8 (addr * 8 + row)))
            (addr * 8 + row) _) ?_
        intro t1 e1
        exact hcont t1 ((writeStatus_maxDevices _ _ _ _ e1).trans hn)

theorem tracks_glyph (n : Nat) (t : Traced) (addr digit : Nat) (r : Option Nat) (g : Nat → Nat)
    (hn : t.obj.maxDevices = n) (h8 : n ≤ 8) (hk : addr < n) (hd : digit ≤ 7) :
    Tracks n
      (r.bind fun v =>
        (t.obj.writeStatus (addr * 8 + digit) (g v)).bind fun s =>
          s.spiTransfer addr ((digit + 1) % 256) (g v))
      (t.note (Access.arith8 (addr * 8)))
      (r.bind fun v =>
        (((t.note (Access.arith8 (addr * 8))).note
            (Access.arith8 (addr * 8 + digit))).writeStatus (addr * 8 + digit) (g v)).bind fun u =>
          u.spiTransfer addr ((digit + 1) % 256) (g v)) := by
  apply tracks_read_bind
  intro v _
  apply tracks_note n _ _ (Access.arith8 (addr * 8 + digit)) _
    (by simp only [Access.Safe]; omega)
  refine tracks_bind n _ _ _ _ _
    (tracks_writeStatus n
      ((t.note (Access.arith8 (addr * 8))).note (Access.arith8 (addr * 8 + digit)))
      (addr * 8 + digit) (g v)) ?_
  intro t1 e1
  exact tracks_spiTransfer n t1 addr _ _ ((writeStatus_maxDevices _ _ _ _ e1).trans hn) h8 hk

theorem tracks_setDigit (charTable : Nat → Nat) (n : Nat) (t : Traced)
    (addr digit value : Nat) (dp : Bool) (hn : t.obj.maxDevices = n) (h8 : n ≤ 8) :
    Tracks n (setDigit charTable t.obj addr digit value dp) t
      (Traced.setDigit charTable t addr digit value dp) := by
  by_cases h1 : addr ≥ t.obj.maxDevices
  · simp only [setDigit, Traced.setDigit, h1, if_true]
    exact tracks_some n t
  · by_cases h2 : digit > 7 ∨ value > 15
    · simp only [setDigit, Traced.setDigit, h1, h2, if_false, if_true]
      exact tracks_some n t
    · have ha : addr * 8 % 256 = addr * 8 := by omega
      simp only [setDigit, Traced.setDigit, h1, h2, if_false, Option.bind_eq_bind,
        Traced.note_obj, ha]
      apply tracks_note n _ t (Access.arith8 (addr * 8)) _ (by simp only [Access.Safe]; omega)
      exact tracks_glyph n t addr digit (readCharTable charTable value)
        (fun v => if dp = true then (v ||| B10000000) % 256 else v) hn h8 (by omega) (by omega)

theorem tracks_setChar (charTable : Nat → Nat) (n : Nat) (t : Traced)
    (addr digit value : Nat) (dp : Bool) (hn : t.obj.maxDevices = n) (h8 : n ≤ 8) :
    Tracks n (setChar charTable t.obj addr digit value dp) t
      (Traced.setChar charTable t addr digit value dp) := by
  by_cases h1 : addr ≥ t.obj.maxDevices
  · simp only [setChar, Traced.setChar, h1, if_true]
    exact tracks_some n t
  · by_cases h2 : digit > 7
    · simp only [setChar, Traced.setChar, h1, h2, if_false, if_true]
      exact tracks_some n t
    · have ha : addr * 8 % 256 = addr * 8 := by omega
      simp only [setChar, Traced.setChar, h1, h2, if_false, Option.bind_eq_bind,
        Traced.note_obj, ha]
      apply tracks_note n _ t (Access.arith8 (addr * 8)) _ (by simp only [Access.Safe]; omega)
      exact tracks_glyph n t addr digit
        (readCharTable charTable (if value % 256 > 127 then 32 else value % 256))
        (fun v => if dp = true then (v ||| B10000000) % 256 else v) hn h8 (by omega) (by omega)

theorem run_maxDevices (charTable : Nat → Nat) (s o : LedControl) (op : Op)
    (h8 : s.maxDevices ≤ 8) (h : op.run charTable s = some o) :
    o.maxDevices = s.maxDevices := by
  cases ht : op.target with
  | none =>
    cases op <;> simp [Op.target] at ht
    simp only [Op.run, Option.some.injEq] at h
    rw [← h]
  | some d =>
    obtain ⟨s', e, hiso⟩ := run_isolated charTable s op d h8 ht
    obtain rfl : s' = o := Option.some.inj (e.symm.trans h)
    exact hiso.1

theorem run_total (charTable : Nat → Nat) (s : LedControl) (op : Op) (h8 : s.maxDevices ≤ 8) :
    ∃ s', op.run charTable s = some s' := by
  cases ht : op.target with
  | none =>
    cases op <;> simp [Op.target] at ht
    exact ⟨s, rfl⟩
  | some d =>
    obtain ⟨s', e, _⟩ := run_isolated charTable s op d h8 ht
    exact ⟨s', e⟩

theorem tracks_clearRow (n : Nat) (t : Traced) (addr i : Nat)
    (hn : t.obj.maxDevices = n) (h8 : n ≤ 8) (hk : addr < n) (hi : i < 8) :
    Tracks n
      ((t.obj.writeStatus (addr * 8 + i) 0).bind fun s =>
        (s.readStatus (addr * 8 + i)).bind fun v => s.spiTransfer addr ((i + 1) % 256) v)
      t (Traced.clearRow addr (addr * 8) i t) := by
  simp only [Traced.clearRow, Option.bind_eq_bind, Traced.note_obj]
  apply tracks_note n _ t (Access.arith8 (addr * 8 + i)) _ (by simp only [Access.Safe]; omega)
  refine tracks_bind n _ _ _ _ _
    (tracks_writeStatus n (t.note (Access.arith8 (addr * 8 + i))) (addr * 8 + i) 0) ?_
  intro t1 e1
  have hn1 : t1.obj.maxDevices = n := (writeStatus_maxDevices _ _ _ _ e1).trans hn
  apply tracks_note n _ t1 (Access.arith8 (addr * 8 + i)) _ (by simp only [Access.Safe]; omega)
  apply tracks_read_bind
  intro v hv
  apply tracks_note n _ _ (Access.status (addr * 8 + i)) _ (readStatus_lt _ _ _ hv)
  exact tracks_spiTransfer n
    ((t1.note (Access.arith8 (addr * 8 + i))).note (Access.status (addr * 8 + i)))
    addr _ v hn1 h8 hk

theorem tracks_clearDisplay (n : Nat) (t : Traced) (addr : Nat)
    (hn : t.obj.maxDevices = n) (h8 : n ≤ 8) :
    Tracks n (t.obj.clearDisplay addr) t (t.clearDisplay addr) := by
  by_cases h1 : addr ≥ t.obj.maxDevices
  · simp only [clearDisplay, Traced.clearDisplay, h1, if_true]
    exact tracks_some n t
  · have ha : addr * 8 % 256 = addr * 8 := by omega
    simp only [clearDisplay, Traced.clearDisplay, h1, if_false, ha]
    apply tracks_note n _ t (Access.arith8 (addr * 8)) _ (by simp only [Access.Safe]; omega)
    refine tracks_forUp n _ (Traced.clearRow addr (addr * 8)) (fun o => o.maxDevices = n)
      (8 - 0) 0 (t.note (Access.arith8 (addr * 8))) hn ?_ ?_
    · intro j o o' _ _ ho he
      obtain ⟨o1, e1, e2⟩ := Option.bind_eq_some.mp he
      obtain ⟨v, _, e3⟩ := Option.bind_eq_some.mp e2
      have ho1 : o1.maxDevices = n := (writeStatus_maxDevices _ _ _ _ e1).trans ho
      exact (spiTransfer_maxDevices o1 o' addr _ v (by omega) (by omega) e3).trans ho1
    · intro j u _ hj hu
      exact tracks_clearRow n u addr j hu h8 (by omega) (by omega)

theorem tracks_setColumn (n : Nat) (t : Traced) (addr col value : Nat)
    (hn : t.obj.maxDevices = n) (h8 : n ≤ 8) :
    Tracks n (t.obj.setColumn addr col value) t (t.setColumn addr col value) := by
  by_cases h1 : addr ≥ t.obj.maxDevices
  · simp only [setColumn, Traced.setColumn, h1, if_true]
    exact tracks_some n t
  · by_cases h2 : col > 7
    · simp only [setColumn, Traced.setColumn, h1, h2, if_false, if_true]
      exact tracks_some n t
    · simp only [setColumn, Traced.setColumn, h1, h2, if_false]
      refine tracks_forUp n _ _ (fun o => o.maxDevices = n) (8 - 0) 0 t hn ?_ ?_
      · intro j o o' _ _ ho he
        exact (run_maxDevices (fun k => k) o o' (Op.setLed addr j col _) (by omega) he).trans ho
      · intro j u _ _ hu
        exact tracks_setLed n u addr j col _ hu h8

theorem tracks_run (charTable : Nat → Nat) (n : Nat) (t : Traced) (op : Op)
    (hn : t.obj.maxDevices = n) (h8 : n ≤ 8) :
    Tracks n (op.run charTable t.obj) t (op.runTraced charTable t) := by
  cases op with
  | getDeviceCount => exact tracks_some n t
  | shutdown addr b => exact tracks_shutdown n t addr b hn h8
  | setScanLimit addr limit => exact tracks_setScanLimit n t addr limit hn h8
  | setIntensity addr intensity => exact tracks_setIntensity n t addr intensity hn h8
  | clearDisplay addr => exact tracks_clearDisplay n t addr hn h8
  | setLed addr row column state => exact tracks_setLed n t addr row column state hn h8
  | setRow addr row value => exact tracks_setRow n t addr row value hn h8
  | setColumn addr col value => exact tracks_setColumn n t addr col value hn h8
  | setDigit addr digit value dp => exact tracks_setDigit charTable n t addr digit value dp hn h8
  | setChar addr digit value dp => exact tracks_setChar charTable n t addr digit value dp hn h8

theorem tracks_of_obj (n : Nat) (orig : Option LedControl) (t : Traced) (o : LedControl)
    (res : Option Traced) (h : Tracks n orig { obj := o, log := t.log } res) :
    Tracks n orig t res := h

theorem tracks_zeroStatus (n : Nat) (o : LedControl) (log : List Access) :
    Tracks n (forUp (fun i t => t.writeStatus i 0x00) (64 - 0) 0 o) { obj := o, log := log }
      (forUp (fun i (t : Traced) => t.writeStatus i 0x00) (64 - 0) 0 { obj := o, log := log }) :=
  tracks_forUp n (fun i s => s.writeStatus i 0x00) (fun i u => u.writeStatus i 0x00)
    (fun _ => True) (64 - 0) 0 { obj := o, log := log } trivial
    (fun _ _ _ _ _ _ _ => trivial) (fun j u _ _ _ => tracks_writeStatus n u j 0x00)

theorem tracks_constructFields (n : Nat) (raw : Traced) (dataPin clkPin csPin numDevices : Nat) :
    Tracks n (constructFields raw.obj dataPin clkPin csPin numDevices) raw
      (raw.constructFields dataPin clkPin csPin numDevices) := by
  simp only [constructFields, Traced.constructFields]
  refine tracks_of_obj n _ raw ?o _ ?h
  case h => exact tracks_zeroStatus n _ raw.log

theorem tracks_constructDevice (n : Nat) (t : Traced) (i : Nat)
    (hn : t.obj.maxDevices = n) (h8 : n ≤ 8) (hi : i < n) :
    Tracks n (constructDevice i t.obj) t (Traced.constructDevice i t) := by
  simp only [constructDevice, Traced.constructDevice, Option.bind_eq_bind]
  refine tracks_bind n _ _ _ _ _ (tracks_spiTransfer n t i _ _ hn h8 hi) ?_
  intro t1 e1
  have hn1 : t1.obj.maxDevices = n :=
    (spiTransfer_maxDevices _ _ _ _ _ (by omega) (by omega) e1).trans hn
  refine tracks_bind n _ _ _ _ _ (tracks_setScanLimit n t1 i 7 hn1 h8) ?_
  intro t2 e2
  have hn2 : t2.obj.maxDevices = n :=
    (run_maxDevices (fun k => k) _ _ (Op.setScanLimit i 7) (by omega) e2).trans hn1
  refine tracks_bind n _ _ _ _ _ (tracks_spiTransfer n t2 i _ _ hn2 h8 hi) ?_
  intro t3 e3
  have hn3 : t3.obj.maxDevices = n :=
    (spiTransfer_maxDevices _ _ _ _ _ (by omega) (by omega) e3).trans hn2
  refine tracks_bind n _ _ _ _ _ (tracks_clearDisplay n t3 i hn3 h8) ?_
  intro t4 e4
  have hn4 : t4.obj.maxDevices = n :=
    (run_maxDevices (fun k => k) _ _ (Op.clearDisplay i) (by omega) e4).trans hn3
  exact tracks_shutdown n t4 i true hn4 h8

theorem tracks_construct (n : Nat) (raw : Traced) (dataPin clkPin csPin : Nat) (h8 : n ≤ 8) :
    Tracks n (construct raw.obj dataPin clkPin csPin n) raw
      (raw.construct dataPin clkPin csPin n) := by
  simp only [construct, Traced.construct, Option.bind_eq_bind]
  refine tracks_bind n _ _ _ _ _ (tracks_constructFields n raw dataPin clkPin csPin n) ?_
  intro t1 e1
  have hn1 : t1.obj.maxDevices = n := by
    rw [constructFields_eq] at e1
    rw [← Option.some.inj e1]
    rfl
  rw [hn1]
  refine tracks_forUp n constructDevice Traced.constructDevice (fun o => o.maxDevices = n)
    (n - 0) 0 t1 hn1 ?_ ?_
  · intro j o o' _ hj ho he
    rw [constructDevice_eq o j (by omega) (by omega)] at he
    rw [← Option.some.inj he, deviceInit_maxDevices, ho]
  · intro j u _ hj hu
    exact tracks_constructDevice n u j hu h8 (by omega)

/-- C18: on an object with `maxDevices ≤ 8`, every public call, with any
arguments, succeeds in the instrumented run exactly as in the plain one (same
resulting object), and of the notes taken during the call every shadow index
read or written is below 64, every index of `spidata` written or read is below
`2 * maxDevices`, itself at most 16, and every evaluation of `addr * 8`,
`addr * 8 + row`, `addr * 2`, `addr * 2 + 1` and `maxDevices * 2` has an exact
value below 256, so none wraps modulo 256.  The same holds for the
constructor called with a device count `n ≤ 8`. -/
theorem index_safety (charTable : Nat → Nat) (s : LedControl) (op : Op)
    (h8 : s.maxDevices ≤ 8) :
    (∃ (s' : LedControl) (l : List Access), op.run charTable s = some s' ∧
      op.runTraced charTable { obj := s, log := [] } = some { obj := s', log := l } ∧
      (∀ i, Access.status i ∈ l → i < 64) ∧
      (∀ i, Access.spidata i ∈ l → i < 2 * s.maxDevices ∧ 2 * s.maxDevices ≤ 16) ∧
      (∀ v, Access.arith8 v ∈ l → v < 256)) ∧
    (∀ (dataPin clkPin csPin n : Nat), n ≤ 8 →
      ∃ (s' : LedControl) (l : List Access), construct s dataPin clkPin csPin n = some s' ∧
        Traced.construct { obj := s, log := [] } dataPin clkPin csPin n
          = some { obj := s', log := l } ∧
        (∀ i, Access.status i ∈ l → i < 64) ∧
        (∀ i, Access.spidata i ∈ l → i < 2 * n ∧ 2 * n ≤ 16) ∧
        (∀ v, Access.arith8 v ∈ l → v < 256)) := by
  constructor
  · obtain ⟨s', e⟩ := run_total charTable s op h8
    obtain ⟨l, el, hl⟩ := tracks_run charTable s.maxDevices { obj := s, log := [] } op rfl h8 s' e
    refine ⟨s', l, e, ?_, fun i hi => hl _ hi, fun i hi => hl _ hi, fun v hv => hl _ hv⟩
    rw [el, List.nil_append]
  · intro dataPin clkPin csPin n hn
    obtain ⟨l, el, hl⟩ := tracks_construct n { obj := s, log := [] } dataPin clkPin csPin hn _
      (construct_eq s dataPin clkPin csPin n hn)
    refine ⟨_, l, construct_eq s dataPin clkPin csPin n hn, ?_, fun i hi => hl _ hi,
      fun i hi => hl _ hi, fun v hv => hl _ hv⟩
    rw [el, List.nil_append]

/-- Instance of `index_safety`: `setColumn 1 7 0xFF` on the two-device object
`demo`, and the constructor called with 8 devices. -/
theorem index_safety_witness :
    demo.maxDevices ≤ 8 ∧
    (∃ (s' : LedControl) (l : List Access),
      (Op.setColumn 1 7 0xFF).run (fun j => j) demo = some s' ∧
      (Op.setColumn 1 7 0xFF).runTraced (fun j => j) { obj := demo, log := [] }
        = some { obj := s', log := l } ∧
      (∀ i, Access.status i ∈ l → i < 64) ∧
      (∀ i, Access.spidata i ∈ l → i < 2 * demo.maxDevices ∧ 2 * demo.maxDevices ≤ 16) ∧
      (∀ v, Access.arith8 v ∈ l → v < 256)) ∧
    (∃ (s' : LedControl) (l : List Access), construct demo 12 11 10 8 = some s' ∧
      Traced.construct { obj := demo, log := [] } 12 11 10 8 = some { obj := s', log := l } ∧
      (∀ i, Access.status i ∈ l → i < 64) ∧
      (∀ i, Access.spidata i ∈ l → i < 2 * 8 ∧ 2 * 8 ≤ 16) ∧
      (∀ v, Access.arith8 v ∈ l → v < 256)) :=
  ⟨by decide,
    (index_safety (fun j => j) demo (Op.setColumn 1 7 0xFF) (by decide)).1,
    (index_safety (fun j => j) demo (Op.setColumn 1 7 0xFF) (by decide)).2 12 11 10 8
      (by decide)⟩

/-- The notes of one call, spelled out: `setRow 1 3 5` on the two-device
object `demo` evaluates `addr * 8` and `addr * 8 + row`, writes and reads
`status[11]`, and in `spiTransfer` evaluates `addr * 2`, `maxDevices * 2` and
`addr * 2 + 1`, zeroes `spidata[0..3]`, stores the opcode and the data, and
reads the four bytes back from index 3 down to index 0. -/
theorem setRow_log_example :
    (Traced.setRow { obj := demo, log := [] } 1 3 5).map (fun t => t.log)
      = some [Access.arith8 8, Access.arith8 11, Access.status 11, Access.arith8 11,
          Access.status 11, Access.arith8 2, Access.arith8 4,
          Access.spidata 0, Access.spidata 1, Access.spidata 2, Access.spidata 3,
          Access.arith8 3, Access.spidata 3, Access.spidata 2,
          Access.spidata 3, Access.spidata 2, Access.spidata 1, Access.spidata 0] := by
  decide

end LedControl
